import Mathlib

/-!
# kernel_vas: verification development

Shallow embedding of `src/kernel_vas.c`, a Linux kernel module that logs the
layout of the user and kernel virtual address space.

* Machine words are natural numbers reduced modulo `2 ^ bits`, where `bits` is
  `BITS_PER_LONG`; a pointer difference is the signed reading of the wrapped
  difference, and `>>` on it is the arithmetic shift.
* Every `pr_info` call is one `Rec`: the format string the preprocessor
  assembles for the build, and the list of C values handed to it.
* Preprocessor conditionals become tests on the fields of `Config`; constants
  that come from kernel headers are fields of `Kernel`.
* The execution context is `Task`: its memory descriptor `current->mm` may be absent.
  `show_userspace_info` is the body of the function for a descriptor that is present;
  `show_userspace_info_current` is the call in a context, which faults on an absent
  descriptor, and `kernel_vas_init` ends in an `Outcome`: a return value or a fault.
* The `#ifdef DEBUG` block of `show_userspace_info` uses `PRINT_CTX`, which no
  header included by the file defines, so no build that compiles has it; it is
  not part of the model.
-/

namespace KernelVas

/-! ## Machine arithmetic -/

/-- Unsigned word addition: `a + b` of two `unsigned long` (or pointer plus offset). -/
def uadd (bits a b : Nat) : Nat := (a + b) % 2 ^ bits

/-- Unsigned word multiplication. -/
def umul (bits a b : Nat) : Nat := (a * b) % 2 ^ bits

/-- Signed reading of a word (two's complement). -/
def toSigned (bits n : Nat) : Int :=
  if n % 2 ^ bits < 2 ^ (bits - 1) then ((n % 2 ^ bits : Nat) : Int)
  else ((n % 2 ^ bits : Nat) : Int) - (2 : Int) ^ bits

/-- Pointer difference `(hi) - (low)` of two `void *`: a signed word. -/
def ptrdiff (bits hi low : Nat) : Int :=
  toSigned bits ((((hi : Int) - (low : Int)) % (2 : Int) ^ bits).toNat)

/-- The shift `v >> k` of a signed word: arithmetic, the sign bit is propagated. -/
def asr (v : Int) (k : Nat) : Int := Int.shiftRight v k

/-- The number a `%zu` conversion prints for a signed word: its unsigned reading. -/
def zu (bits : Nat) (v : Int) : Nat := (v % (2 : Int) ^ bits).toNat

/-- C values handed to a format string. -/
inductive CVal where
  | ptr (a : Nat)
  | long (v : Int)
  | ulong (n : Nat)
  | int (i : Int)
  | str (s : String)
deriving DecidableEq

/-- The figure an unsigned conversion (`%px`, `%zu`, `%lu`) prints for a word value. -/
def CVal.figure (bits : Nat) : CVal → Option Nat
  | .ptr a => some a
  | .long v => some (zu bits v)
  | .ulong n => some n
  | .int _ => none
  | .str _ => none

/-! ## The SHOW_DELTA_* macros (lines 25-35) -/

def SHOW_DELTA_BYTES (bits low hi : Nat) : List CVal :=
  [.ptr low, .ptr hi, .long (ptrdiff bits hi low)]

def SHOW_DELTA_KILO (bits low hi : Nat) : List CVal :=
  [.ptr low, .ptr hi, .long (asr (ptrdiff bits hi low) 10)]

def SHOW_DELTA_MEGA (bits low hi : Nat) : List CVal :=
  [.ptr low, .ptr hi, .long (asr (ptrdiff bits hi low) 20)]

def SHOW_DELTA_GIGA (bits low hi : Nat) : List CVal :=
  [.ptr low, .ptr hi, .long (asr (ptrdiff bits hi low) 30)]

def SHOW_DELTA_MEGA_GIGA (bits low hi : Nat) : List CVal :=
  [.ptr low, .ptr hi, .long (asr (ptrdiff bits hi low) 20), .long (asr (ptrdiff bits hi low) 30)]

def SHOW_DELTA_MEGA_GIGA_TERA (bits low hi : Nat) : List CVal :=
  if bits == 64 then
    [.ptr low, .ptr hi, .long (asr (ptrdiff bits hi low) 20), .long (asr (ptrdiff bits hi low) 30),
      .long (asr (ptrdiff bits hi low) 40)]
  else
    [.ptr low, .ptr hi, .long (asr (ptrdiff bits hi low) 20), .long (asr (ptrdiff bits hi low) 30)]

/-- The figures printed for an argument list, one per word value. -/
def figures (bits : Nat) (args : List CVal) : List (Option Nat) :=
  args.map (CVal.figure bits)

/-! ## Build configuration, kernel constants, execution context -/

/-- Preprocessor symbols the source tests. -/
structure Config where
  BITS_PER_LONG : Nat
  CONFIG_X86 : Bool
  CONFIG_ARM : Bool
  CONFIG_ARM64 : Bool
  CONFIG_MIPS : Bool
  CONFIG_PPC : Bool
  CONFIG_S390 : Bool
  BIG_ENDIAN : Bool
  CONFIG_KASAN : Bool
  CONFIG_SPARSEMEM_VMEMMAP : Bool
  CONFIG_HIGHMEM : Bool
  LINUX_VERSION_CODE : Nat

/-- The version code of `linux/version.h`, for a patch level below 256. -/
def KERNEL_VERSION (a b c : Nat) : Nat := a * 65536 + b * 256 + c

/-- Constants and globals the source reads from kernel headers. -/
structure Kernel where
  KBUILD_MODNAME : String
  PAGE_SIZE : Nat
  TASK_SIZE : Nat
  totalram_pages : Nat
  VA_BITS : Int
  VECTORS_BASE : Nat
  FIXADDR_START : Nat
  FIXADDR_END : Nat
  FIXADDR_SIZE : Nat
  MODULES_VADDR : Nat
  MODULES_END : Nat
  KASAN_SHADOW_START : Nat
  KASAN_SHADOW_END : Nat
  VMEMMAP_START : Nat
  VMEMMAP_SIZE : Nat
  VMALLOC_START : Nat
  VMALLOC_END : Nat
  PAGE_OFFSET : Nat
  PKMAP_BASE : Nat
  LAST_PKMAP : Nat

/-- The fields of `current->mm` the source reads. -/
structure MM where
  env_start : Nat
  env_end : Nat
  arg_start : Nat
  arg_end : Nat
  start_stack : Nat
  start_brk : Nat
  brk : Nat
  start_data : Nat
  end_data : Nat
  start_code : Nat
  end_code : Nat
  map_count : Int

/-- One `pr_info` call: the format string and the values handed to it. -/
structure Rec where
  fmt : String
  args : List CVal
deriving DecidableEq

/-- The execution context `current`: its memory descriptor `current->mm`, absent (a NULL
pointer) in a context that has no user address space. -/
structure Task where
  mm : Option MM

/-- How a call ends: it returns a value, or it faults on the dereference of a NULL pointer
and returns nothing; either way with the records logged up to that point. -/
inductive Outcome where
  | returned (ret : Int) (log : List Rec)
  | faulted (log : List Rec)
deriving DecidableEq

/-- The records logged by a call, in order. -/
def Outcome.log : Outcome → List Rec
  | .returned _ log => log
  | .faulted log => log

/-- The value a call returns, none when it faults. -/
def Outcome.ret : Outcome → Option Int
  | .returned ret _ => some ret
  | .faulted _ => none

/-! ## String helpers of the kernel library -/

/-- What `snprintf(buf, size, ...)` leaves in `buf` for the rendered text `s`:
at most `size - 1` characters. -/
def snprintf (size : Nat) (s : String) : String := ⟨s.data.take (size - 1)⟩

/-- What `strlcat(dst, src, count)` leaves in `dst`: `src` appended, cut so that
the whole has at most `count - 1` characters. -/
def strlcat (dst src : String) (count : Nat) : String :=
  ⟨dst.data ++ src.data.take (count - 1 - dst.data.length)⟩

/-! ## minsysinfo (lines 49-90) -/

def MSGLEN : Nat := 128

/-- The text `snprintf` renders from `"%s(): minimal platform info:\nCPU: "` and `__func__`. -/
def minsysinfo_head : String := "minsysinfo" ++ "(): minimal platform info:\nCPU: "

/-- The buffer `msg` as `minsysinfo` hands it to `pr_info`. -/
def minsysinfo_msg (cfg : Config) : String :=
  let msg := snprintf 48 minsysinfo_head
  let msg := if cfg.CONFIG_X86 then
      (if cfg.BITS_PER_LONG == 32 then strlcat msg "x86_32, " MSGLEN
       else strlcat msg "x86_64, " MSGLEN)
    else msg
  let msg := if cfg.CONFIG_ARM then strlcat msg "ARM-32, " MSGLEN else msg
  let msg := if cfg.CONFIG_ARM64 then strlcat msg "Aarch64, " MSGLEN else msg
  let msg := if cfg.CONFIG_MIPS then strlcat msg "MIPS, " MSGLEN else msg
  let msg := if cfg.CONFIG_PPC then strlcat msg "PowerPC, " MSGLEN else msg
  let msg := if cfg.CONFIG_S390 then strlcat msg "IBM S390, " MSGLEN else msg
  let msg := if cfg.BIG_ENDIAN then strlcat msg "big-endian; " MSGLEN
    else strlcat msg "little-endian; " MSGLEN
  let msg := if cfg.BITS_PER_LONG == 32 then strlcat msg "32-bit OS.\n" MSGLEN
    else if cfg.BITS_PER_LONG == 64 then strlcat msg "64-bit OS.\n" MSGLEN
    else msg
  msg

def minsysinfo (cfg : Config) : List Rec :=
  [⟨"%s", [.str (minsysinfo_msg cfg)]⟩]

/-! ## show_userspace_info (lines 99-155) -/

def DOTS : String := "|                         [ . . . ]                           |\n"

/-- The format string of the first `pr_info` of `show_userspace_info` (lines 100-127). -/
def userspace_fmt (bits : Nat) : String :=
  "+------- Above this line: kernel VAS; below: user VAS --------+\n"
  ++ DOTS
  ++ "|Process environment "
  ++ (if bits == 64 then
        " %px - %px     | [ %4zu bytes]\n"
        ++ "|          arguments "
        ++ " %px - %px     | [ %4zu bytes]\n"
        ++ "|        stack start  %px                        |\n"
        ++ "|       heap segment "
        ++ " %px - %px     | [ %9zu KB]\n"
        ++ "|static data segment "
        ++ " %px - %px     | [ %4zu bytes]\n"
        ++ "|       text segment "
        ++ " %px - %px     | [ %9zu KB]\n"
      else
        " %px - %px                     | [ %4zu bytes]\n"
        ++ "|          arguments "
        ++ " %px - %px                     | [ %4zu bytes]\n"
        ++ "|        stack start  %px                                |\n"
        ++ "|       heap segment "
        ++ " %px - %px                     | [ %9zu KB]\n"
        ++ "|static data segment "
        ++ " %px - %px                     | [ %4zu bytes]\n"
        ++ "|       text segment "
        ++ " %px - %px                     | [ %9zu KB]\n")
  ++ DOTS
  ++ "+-------------------------------------------------------------+\n"

/-- The format string of the second `pr_info` of `show_userspace_info` (lines 136-142). -/
def task_size_fmt (bits : Nat) : String :=
  (if bits == 64 then
    "Kernel, User VAS (TASK_SIZE) size each = %15zu bytes  [  %zu GB]\n"
  else
    "Size of User VAS size (TASK_SIZE) = %10lu bytes            [  %lu GB]\n")
  ++ " # userspace memory regions (VMAs) = %d\n"

/-- The body of `show_userspace_info` for the memory descriptor `mm` that `current->mm`
points to. -/
def show_userspace_info (cfg : Config) (k : Kernel) (mm : MM) : List Rec :=
  let bits := cfg.BITS_PER_LONG
  [ ⟨userspace_fmt bits,
      SHOW_DELTA_BYTES bits mm.env_start mm.env_end
      ++ SHOW_DELTA_BYTES bits mm.arg_start mm.arg_end
      ++ [.ptr mm.start_stack]
      ++ SHOW_DELTA_KILO bits mm.start_brk mm.brk
      ++ SHOW_DELTA_BYTES bits mm.start_data mm.end_data
      ++ SHOW_DELTA_KILO bits mm.start_code mm.end_code⟩,
    ⟨task_size_fmt bits,
      (if bits == 64 then [.ulong k.TASK_SIZE, .ulong (k.TASK_SIZE >>> 30)]
       else [.ulong k.TASK_SIZE, .ulong (k.TASK_SIZE >>> 20)])
      ++ [.int mm.map_count]⟩ ]

/-- The call `show_userspace_info()` in the context `current`. The arguments of the first
`pr_info` read `current->mm->env_start` and the other fields (lines 128-133) with no test of
`current->mm`, so in a context without a memory descriptor the call faults before it logs
anything. -/
def show_userspace_info_current (cfg : Config) (k : Kernel) (current : Task) :
    Option (List Rec) :=
  match current.mm with
  | none => none
  | some mm => some (show_userspace_info cfg k mm)

/-! ## show_kernelvas_info (lines 164-304) -/

/-- The variable `ram_size`: `totalram_pages * PAGE_SIZE` as an `unsigned long`. The two
branches on `LINUX_VERSION_CODE` (lines 167-171) read the same page counter, as a function
from kernel 5.0 on and as a variable before. -/
def ram_size (cfg : Config) (k : Kernel) : Nat :=
  umul cfg.BITS_PER_LONG k.totalram_pages k.PAGE_SIZE

/-- Lines 172-181: page size, RAM, `VA_BITS` and the table header. -/
def kvas_header (cfg : Config) (k : Kernel) : List Rec :=
  [⟨"PAGE_SIZE = %lu, total RAM ~= %lu MB (%lu bytes)\n",
    [.ulong k.PAGE_SIZE, .ulong (ram_size cfg k / (1014 * 1024)), .ulong (ram_size cfg k)]⟩]
  ++ (if cfg.CONFIG_ARM64 then
        [⟨"VA_BITS (CONFIG_ARM64_VA_BITS) = %d\n", [.int k.VA_BITS]⟩]
        ++ (if k.VA_BITS > 48 && k.PAGE_SIZE == 64 * 1024 then
              [⟨"*** >= ARMv8.2 with LPA? (YMMV, not supported here) ***\n", []⟩]
            else [])
      else [])
  ++ [⟨"Some Kernel Details [by decreasing address; values are approximate]\n"
       ++ "+-------------------------------------------------------------+\n", []⟩]

/-- Lines 183-192: the ARM-32 vector table. -/
def kvas_vector (cfg : Config) (k : Kernel) : List Rec :=
  if cfg.CONFIG_ARM && decide (cfg.LINUX_VERSION_CODE > KERNEL_VERSION 4 11 0) then
    [⟨DOTS ++ "|vector table:       " ++ " %px - %px                     | [%5zu KB]\n",
      SHOW_DELTA_KILO cfg.BITS_PER_LONG k.VECTORS_BASE
        (uadd cfg.BITS_PER_LONG k.VECTORS_BASE k.PAGE_SIZE)⟩]
  else []

/-- Lines 194-206: the fixmap region. -/
def kvas_fixmap (cfg : Config) (k : Kernel) : List Rec :=
  if cfg.CONFIG_ARM then
    [⟨DOTS ++ "|fixmap region:      " ++ " %px - %px                     | [%5zu MB]\n",
      SHOW_DELTA_MEGA cfg.BITS_PER_LONG k.FIXADDR_START k.FIXADDR_END⟩]
  else if cfg.CONFIG_ARM64 || cfg.CONFIG_X86 then
    [⟨DOTS ++ "|fixmap region:      " ++ " %px - %px     | [%9zu MB]\n",
      SHOW_DELTA_MEGA cfg.BITS_PER_LONG k.FIXADDR_START
        (uadd cfg.BITS_PER_LONG k.FIXADDR_START k.FIXADDR_SIZE)⟩]
  else
    [⟨DOTS ++ "|fixmap region:      ", []⟩]

/-- Lines 214-219: the module region on 64-bit. -/
def kvas_module64 (cfg : Config) (k : Kernel) : List Rec :=
  if cfg.BITS_PER_LONG == 64 then
    [⟨"|module region:      " ++ " %px - %px     | [%9zu MB]\n",
      SHOW_DELTA_MEGA cfg.BITS_PER_LONG k.MODULES_VADDR k.MODULES_END⟩]
  else []

/-- Lines 221-231: the KASAN shadow region. -/
def kvas_kasan (cfg : Config) (k : Kernel) : List Rec :=
  if cfg.CONFIG_KASAN then
    (if cfg.BITS_PER_LONG == 64 then
      [⟨"|KASAN shadow:       " ++ " %px - %px     | [%9zu MB = %6zu GB ~= %3zu TB]\n",
        SHOW_DELTA_MEGA_GIGA_TERA cfg.BITS_PER_LONG k.KASAN_SHADOW_START k.KASAN_SHADOW_END⟩]
    else
      [⟨"|KASAN shadow:       " ++ " %px - %px                     | [%9zu MB = %6zu GB]\n",
        SHOW_DELTA_MEGA_GIGA cfg.BITS_PER_LONG k.KASAN_SHADOW_START k.KASAN_SHADOW_END⟩])
  else []

/-- Lines 233-246: the vmemmap region (ARM64 with sparsemem vmemmap; x86-64 start only). -/
def kvas_vmemmap (cfg : Config) (k : Kernel) : List Rec :=
  (if cfg.CONFIG_SPARSEMEM_VMEMMAP && cfg.CONFIG_ARM64 then
    [⟨DOTS ++ "|vmemmap region:     " ++ " %px - %px     | [%9zu MB = %6zu GB ~= %3zu TB]\n",
      SHOW_DELTA_MEGA_GIGA_TERA cfg.BITS_PER_LONG k.VMEMMAP_START
        (uadd cfg.BITS_PER_LONG k.VMEMMAP_START k.VMEMMAP_SIZE)⟩]
  else [])
  ++ (if cfg.CONFIG_X86 && cfg.BITS_PER_LONG == 64 then
    [⟨DOTS ++ "|vmemmap region start %px                        |\n", [.ptr k.VMEMMAP_START]⟩]
  else [])

/-- Lines 248-257: the vmalloc region. -/
def kvas_vmalloc (cfg : Config) (k : Kernel) : List Rec :=
  if cfg.BITS_PER_LONG == 64 then
    [⟨"|vmalloc region:     " ++ " %px - %px     | [%9zu MB = %6zu GB ~= %3zu TB]\n",
      SHOW_DELTA_MEGA_GIGA_TERA cfg.BITS_PER_LONG k.VMALLOC_START k.VMALLOC_END⟩]
  else
    [⟨"|vmalloc region:     " ++ " %px - %px                     | [%5zu MB]\n",
      SHOW_DELTA_MEGA cfg.BITS_PER_LONG k.VMALLOC_START k.VMALLOC_END⟩]

/-- Lines 268-278: the lowmem region. -/
def kvas_lowmem (cfg : Config) (k : Kernel) : List Rec :=
  [⟨"|lowmem region:      "
    ++ (if cfg.BITS_PER_LONG == 32 then
          " %px - %px                     | [%5zu MB]\n"
          ++ "|                     ^^^^^^^^                                |\n"
          ++ "|                    PAGE_OFFSET                              |\n"
        else
          " %px - %px     | [%9zu MB]\n"
          ++ "|                     ^^^^^^^^^^^^^^^^                        |\n"
          ++ "|                        PAGE_OFFSET                          |\n"),
    SHOW_DELTA_MEGA cfg.BITS_PER_LONG k.PAGE_OFFSET
      (uadd cfg.BITS_PER_LONG k.PAGE_OFFSET (ram_size cfg k))⟩]

/-- Lines 280-286: the highmem region. -/
def kvas_highmem (cfg : Config) (k : Kernel) : List Rec :=
  if cfg.CONFIG_HIGHMEM && cfg.BITS_PER_LONG == 32 then
    [⟨"|HIGHMEM region:     " ++ " %px - %px                     | [%5zu MB]\n",
      SHOW_DELTA_MEGA cfg.BITS_PER_LONG k.PKMAP_BASE
        (uadd cfg.BITS_PER_LONG k.PKMAP_BASE (umul cfg.BITS_PER_LONG k.LAST_PKMAP k.PAGE_SIZE))⟩]
  else []

/-- Lines 298-302: the module region on 32-bit. -/
def kvas_module32 (cfg : Config) (k : Kernel) : List Rec :=
  if cfg.BITS_PER_LONG == 32 then
    [⟨"|module region:      " ++ " %px - %px                     | [%5zu MB]\n",
      SHOW_DELTA_MEGA cfg.BITS_PER_LONG k.MODULES_VADDR k.MODULES_END⟩]
  else []

/-- The region lines of `show_kernelvas_info`, lines 183-302, in program order. -/
def kvas_regions (cfg : Config) (k : Kernel) : List Rec :=
  kvas_vector cfg k ++ kvas_fixmap cfg k ++ kvas_module64 cfg k ++ kvas_kasan cfg k
  ++ kvas_vmemmap cfg k ++ kvas_vmalloc cfg k ++ kvas_lowmem cfg k ++ kvas_highmem cfg k
  ++ kvas_module32 cfg k

def show_kernelvas_info (cfg : Config) (k : Kernel) : List Rec :=
  kvas_header cfg k ++ kvas_regions cfg k ++ [⟨DOTS, []⟩]

/-! ## Module entry points (lines 307-323) -/

/-- The init entry point in the context `current`: it logs the insertion notice, runs
`minsysinfo`, calls `show_userspace_info`, then calls it again when `show_uservas` is non-zero
and logs the two skip lines otherwise, and returns 0. A call of `show_userspace_info` that
faults ends the entry point there, with no return value. -/
def kernel_vas_init (cfg : Config) (k : Kernel) (current : Task) (show_uservas : Int) :
    Outcome :=
  let log : List Rec :=
    [⟨"%s: kernel_vas is INSERTED\n", [.str k.KBUILD_MODNAME]⟩] ++ minsysinfo cfg
  match show_userspace_info_current cfg k current with
  | none => .faulted log
  | some first =>
    if show_uservas ≠ 0 then
      match show_userspace_info_current cfg k current with
      | none => .faulted (log ++ first)
      | some second => .returned 0 (log ++ first ++ second)
    else
      .returned 0 (log ++ first
        ++ [⟨"+-------------------------------------------------------------+\n", []⟩,
            ⟨"%s: skipping show userspace...\n", [.str k.KBUILD_MODNAME]⟩])

def kernel_vas_exit (k : Kernel) : List Rec :=
  [⟨"%s: kernel_vas is REMOVEDd\n", [.str k.KBUILD_MODNAME]⟩]

/-! ## Reading the log -/

/-- Does the text `s` begin with `pat`. -/
def startsWith : List Char → List Char → Bool
  | [], _ => true
  | _ :: _, [] => false
  | p :: ps, c :: cs => p == c && startsWith ps cs

/-- Number of positions of `s` at which `pat` occurs. -/
def countOcc (pat : List Char) : List Char → Nat
  | [] => 0
  | c :: cs => (if startsWith pat (c :: cs) then 1 else 0) + countOcc pat cs

/-- Number of occurrences of the text `pat` in the format strings of a log. -/
def occurrences (pat : String) (out : List Rec) : Nat :=
  (out.map (fun r => countOcc pat.data r.fmt.data)).sum

/-- Does the log `out` begin with the records of `block`. -/
def blockAt : List Rec → List Rec → Bool
  | [], _ => true
  | _ :: _, [] => false
  | b :: bs, r :: rs => decide (b = r) && blockAt bs rs

/-- Number of positions of the log at which the records of `block` are emitted in a row. -/
def emissions (block : List Rec) : List Rec → Nat
  | [] => 0
  | r :: rs => (if blockAt block (r :: rs) then 1 else 0) + emissions block rs

/-- The labels that open the region lines of the kernel report. -/
def kernel_region_labels : List String :=
  ["|vector table:", "|fixmap region:", "|module region:", "|KASAN shadow:", "|vmemmap region",
    "|vmalloc region:", "|lowmem region:", "|HIGHMEM region:"]

/-- Does a format string carry a kernel region label. -/
def hasKernelLabel (fmt : String) : Bool :=
  kernel_region_labels.any (fun l => decide (0 < countOcc l.data fmt.data))

/-- The kernel-space part of a log: the records that carry a kernel region label. -/
def kernel_part (out : List Rec) : List Rec :=
  out.filter (fun r => hasKernelLabel r.fmt)

/-- The first nine characters of a format string. -/
def fmtKey (fmt : String) : List Char := fmt.data.take 9

/-! ## Regions of the kernel report -/

/-- The regions `show_kernelvas_info` has a line for. -/
inductive Region where
  | vector | fixmap | module | kasan | vmemmap | vmalloc | lowmem | highmem
deriving DecidableEq

/-- The text that opens the line of a region. -/
def Region.label : Region → String
  | .vector => "|vector table:"
  | .fixmap => "|fixmap region:"
  | .module => "|module region:"
  | .kasan => "|KASAN shadow:"
  | .vmemmap => "|vmemmap region"
  | .vmalloc => "|vmalloc region:"
  | .lowmem => "|lowmem region:"
  | .highmem => "|HIGHMEM region:"

def all_regions : List Region :=
  [.vector, .fixmap, .module, .kasan, .vmemmap, .vmalloc, .lowmem, .highmem]

/-- The region whose label a format string carries, if any. -/
def regionOf (fmt : String) : Option Region :=
  all_regions.find? (fun r => decide (0 < countOcc r.label.data fmt.data))

/-- The first value handed to a format string, when it is an address. -/
def first_ptr : List CVal → Option Nat
  | .ptr a :: _ => some a
  | _ => none

/-- The region lines of a log, in the order emitted: the region, and the start address
printed on the line when there is one. -/
def region_lines (out : List Rec) : List (Region × Option Nat) :=
  out.filterMap (fun r => (regionOf r.fmt).map (fun g => (g, first_ptr r.args)))

/-- The regions of a log, in the order their lines are emitted. -/
def region_seq (out : List Rec) : List Region :=
  (region_lines out).map (fun p => p.1)

/-- A region that is present only when its condition holds. -/
def opt (b : Bool) (r : Region) : List Region := if b then [r] else []

/-- The start addresses printed on the region lines of a log, in the order emitted. -/
def region_lows (out : List Rec) : List Nat :=
  (region_lines out).filterMap (fun p => p.2)

/-- The start address the source hands to the line of each region. -/
def Region.low (k : Kernel) : Region → Nat
  | .vector => k.VECTORS_BASE
  | .fixmap => k.FIXADDR_START
  | .module => k.MODULES_VADDR
  | .kasan => k.KASAN_SHADOW_START
  | .vmemmap => k.VMEMMAP_START
  | .vmalloc => k.VMALLOC_START
  | .lowmem => k.PAGE_OFFSET
  | .highmem => k.PKMAP_BASE

/-- The configuration under which the specification has a region's line in the report. -/
def region_configured (cfg : Config) : Region → Bool
  | .vector => cfg.CONFIG_ARM && decide (cfg.LINUX_VERSION_CODE > KERNEL_VERSION 4 11 0)
  | .kasan => cfg.CONFIG_KASAN
  | .vmemmap => (cfg.CONFIG_SPARSEMEM_VMEMMAP && cfg.CONFIG_ARM64)
      || (cfg.CONFIG_X86 && cfg.BITS_PER_LONG == 64)
  | .highmem => cfg.CONFIG_HIGHMEM && cfg.BITS_PER_LONG == 32
  | .fixmap => cfg.CONFIG_ARM || cfg.CONFIG_ARM64 || cfg.CONFIG_X86
  | .module => true
  | .vmalloc => true
  | .lowmem => true

/-- The order of the region lines as the specification gives it for a build. -/
def spec_region_order (cfg : Config) : List Region :=
  if cfg.BITS_PER_LONG == 64 then
    [.fixmap, .module] ++ opt (region_configured cfg .kasan) .kasan
      ++ opt (region_configured cfg .vmemmap) .vmemmap ++ [.vmalloc, .lowmem]
  else
    opt (region_configured cfg .vector) .vector ++ [.fixmap]
      ++ opt (region_configured cfg .kasan) .kasan ++ [.vmalloc, .lowmem]
      ++ opt (region_configured cfg .highmem) .highmem ++ [.module]

/-- A build the kernel's own configuration rules allow: a 32-bit or 64-bit word, CONFIG_ARM
only with 32 bits, CONFIG_ARM64 only with 64 bits and not together with CONFIG_X86. -/
def well_formed (cfg : Config) : Prop :=
  (cfg.BITS_PER_LONG = 32 ∨ cfg.BITS_PER_LONG = 64)
  ∧ (cfg.CONFIG_ARM = true → cfg.BITS_PER_LONG = 32)
  ∧ (cfg.CONFIG_ARM64 = true → cfg.BITS_PER_LONG = 64)
  ∧ ¬ (cfg.CONFIG_ARM64 = true ∧ cfg.CONFIG_X86 = true)

/-! ## The message of minsysinfo, as the specification words it -/

/-- A tag that is present only when its flag is set. -/
def tok (b : Bool) (tag : String) : String := if b then tag else ""

/-- The family tags of a build, one per configured family, in the order of the source. -/
def spec_family_text (cfg : Config) : String :=
  tok cfg.CONFIG_X86 (if cfg.BITS_PER_LONG == 32 then "x86_32, " else "x86_64, ")
  ++ tok cfg.CONFIG_ARM "ARM-32, "
  ++ tok cfg.CONFIG_ARM64 "Aarch64, "
  ++ tok cfg.CONFIG_MIPS "MIPS, "
  ++ tok cfg.CONFIG_PPC "PowerPC, "
  ++ tok cfg.CONFIG_S390 "IBM S390, "

def spec_endian_tag (cfg : Config) : String :=
  if cfg.BIG_ENDIAN then "big-endian; " else "little-endian; "

def spec_width_tag (cfg : Config) : String :=
  if cfg.BITS_PER_LONG == 32 then "32-bit OS.\n"
  else if cfg.BITS_PER_LONG == 64 then "64-bit OS.\n" else ""

/-- The plain concatenation: head, family tags, endianness tag, word-width tag. -/
def spec_plain_message (cfg : Config) : String :=
  minsysinfo_head ++ spec_family_text cfg ++ spec_endian_tag cfg ++ spec_width_tag cfg

/-- Every architecture family tag the source can append. -/
def all_family_tags : List String :=
  ["x86_32, ", "x86_64, ", "ARM-32, ", "Aarch64, ", "MIPS, ", "PowerPC, ", "IBM S390, "]

/-- Number of occurrences in `msg` of the texts of `tags`, all together. -/
def tag_count (tags : List String) (msg : String) : Nat :=
  (tags.map (fun t => countOcc t.data msg.data)).sum

/-- Number of family flags a build sets. -/
def family_flags_set (cfg : Config) : Nat :=
  [cfg.CONFIG_X86, cfg.CONFIG_ARM, cfg.CONFIG_ARM64, cfg.CONFIG_MIPS, cfg.CONFIG_PPC,
    cfg.CONFIG_S390].count true

/-- The pieces of the message, in order. -/
def msg_tokens (cfg : Config) : List String :=
  [minsysinfo_head,
    tok cfg.CONFIG_X86 (if cfg.BITS_PER_LONG == 32 then "x86_32, " else "x86_64, "),
    tok cfg.CONFIG_ARM "ARM-32, ", tok cfg.CONFIG_ARM64 "Aarch64, ", tok cfg.CONFIG_MIPS "MIPS, ",
    tok cfg.CONFIG_PPC "PowerPC, ", tok cfg.CONFIG_S390 "IBM S390, ",
    spec_endian_tag cfg, spec_width_tag cfg]

/-- Every text a piece of the message can be. -/
def vocabulary : List String :=
  [minsysinfo_head, "", "x86_32, ", "x86_64, ", "ARM-32, ", "Aarch64, ", "MIPS, ", "PowerPC, ",
    "IBM S390, ", "big-endian; ", "little-endian; ", "32-bit OS.\n", "64-bit OS.\n"]

/-- Every tag the counts are taken of. -/
def counted_tags : List String :=
  all_family_tags ++ ["big-endian; ", "little-endian; ", "32-bit OS.\n", "64-bit OS.\n"]

/-- Concatenation of a list of texts. -/
def flat : List (List Char) → List Char
  | [] => []
  | x :: xs => x ++ flat xs

/-- No occurrence of `pat` can begin inside `t` and end beyond it: every tail of `t` either
begins with `pat` or differs from `pat` at some position of the tail. -/
def noStraddle (pat : List Char) : List Char → Bool
  | [] => true
  | c :: cs => (startsWith pat (c :: cs) || !startsWith (c :: cs) pat) && noStraddle pat cs

/-! ## Sample builds and inputs -/

/-- An x86-64 build: little-endian, KASAN and sparsemem vmemmap on, kernel 5.4. -/
def cfg_x86_64 : Config :=
  { BITS_PER_LONG := 64, CONFIG_X86 := true, CONFIG_ARM := false, CONFIG_ARM64 := false,
    CONFIG_MIPS := false, CONFIG_PPC := false, CONFIG_S390 := false, BIG_ENDIAN := false,
    CONFIG_KASAN := true, CONFIG_SPARSEMEM_VMEMMAP := true, CONFIG_HIGHMEM := false,
    LINUX_VERSION_CODE := KERNEL_VERSION 5 4 0 }

/-- An ARM-32 build: little-endian, highmem on, kernel 5.4. -/
def cfg_arm32 : Config :=
  { BITS_PER_LONG := 32, CONFIG_X86 := false, CONFIG_ARM := true, CONFIG_ARM64 := false,
    CONFIG_MIPS := false, CONFIG_PPC := false, CONFIG_S390 := false, BIG_ENDIAN := false,
    CONFIG_KASAN := false, CONFIG_SPARSEMEM_VMEMMAP := false, CONFIG_HIGHMEM := true,
    LINUX_VERSION_CODE := KERNEL_VERSION 5 4 0 }

/-- A 32-bit big-endian MIPS build, kernel 5.4. -/
def cfg_mips32 : Config :=
  { BITS_PER_LONG := 32, CONFIG_X86 := false, CONFIG_ARM := false, CONFIG_ARM64 := false,
    CONFIG_MIPS := true, CONFIG_PPC := false, CONFIG_S390 := false, BIG_ENDIAN := true,
    CONFIG_KASAN := false, CONFIG_SPARSEMEM_VMEMMAP := false, CONFIG_HIGHMEM := false,
    LINUX_VERSION_CODE := KERNEL_VERSION 5 4 0 }

/-- A 64-bit little-endian build of a family the source has no tag for (RISC-V, say). -/
def cfg_other64 : Config :=
  { BITS_PER_LONG := 64, CONFIG_X86 := false, CONFIG_ARM := false, CONFIG_ARM64 := false,
    CONFIG_MIPS := false, CONFIG_PPC := false, CONFIG_S390 := false, BIG_ENDIAN := false,
    CONFIG_KASAN := false, CONFIG_SPARSEMEM_VMEMMAP := false, CONFIG_HIGHMEM := false,
    LINUX_VERSION_CODE := KERNEL_VERSION 5 4 0 }

/-- Kernel constants of an x86-64 machine with 4 KiB pages and 1 GiB of RAM. -/
def kernel_x86_64 : Kernel :=
  { KBUILD_MODNAME := "kernel_vas", PAGE_SIZE := 4096, TASK_SIZE := 0x00007ffffffff000,
    totalram_pages := 262144, VA_BITS := 48, VECTORS_BASE := 0,
    FIXADDR_START := 0xffffffffff578000, FIXADDR_END := 0xffffffffff5ff000,
    FIXADDR_SIZE := 0x87000,
    MODULES_VADDR := 0xffffffffa0000000, MODULES_END := 0xffffffffff000000,
    KASAN_SHADOW_START := 0xffffec0000000000, KASAN_SHADOW_END := 0xfffffc0000000000,
    VMEMMAP_START := 0xffffea0000000000, VMEMMAP_SIZE := 0x10000000000,
    VMALLOC_START := 0xffffc90000000000, VMALLOC_END := 0xffffe8ffffffffff,
    PAGE_OFFSET := 0xffff888000000000, PKMAP_BASE := 0, LAST_PKMAP := 0 }

/-- Kernel constants of a 32-bit machine with a 3 GiB user split, 4 KiB pages, 512 MiB of RAM. -/
def kernel_arm32 : Kernel :=
  { KBUILD_MODNAME := "kernel_vas", PAGE_SIZE := 4096, TASK_SIZE := 0xc0000000,
    totalram_pages := 131072, VA_BITS := 32, VECTORS_BASE := 0xffff0000,
    FIXADDR_START := 0xffc00000, FIXADDR_END := 0xfff00000, FIXADDR_SIZE := 0x300000,
    MODULES_VADDR := 0xbf000000, MODULES_END := 0xbfe00000,
    KASAN_SHADOW_START := 0, KASAN_SHADOW_END := 0,
    VMEMMAP_START := 0, VMEMMAP_SIZE := 0,
    VMALLOC_START := 0xe0800000, VMALLOC_END := 0xff800000,
    PAGE_OFFSET := 0xc0000000, PKMAP_BASE := 0xbfe00000, LAST_PKMAP := 512 }

/-- A 64-bit ARM build: little-endian, sparsemem vmemmap on, no KASAN, kernel 4.4. -/
def cfg_arm64 : Config :=
  { BITS_PER_LONG := 64, CONFIG_X86 := false, CONFIG_ARM := false, CONFIG_ARM64 := true,
    CONFIG_MIPS := false, CONFIG_PPC := false, CONFIG_S390 := false, BIG_ENDIAN := false,
    CONFIG_KASAN := false, CONFIG_SPARSEMEM_VMEMMAP := true, CONFIG_HIGHMEM := false,
    LINUX_VERSION_CODE := KERNEL_VERSION 4 4 0 }

/-- Kernel constants of a 64-bit layout with 39-bit addresses in which the linear map is on
top, the module area right below it, the fixmap below the module area, and vmemmap and
vmalloc below these. -/
def kernel_linear_map_on_top : Kernel :=
  { KBUILD_MODNAME := "kernel_vas", PAGE_SIZE := 4096, TASK_SIZE := 0x8000000000,
    totalram_pages := 262144, VA_BITS := 39, VECTORS_BASE := 0,
    FIXADDR_START := 0xffffffbffbc00000, FIXADDR_END := 0xffffffbffbe00000,
    FIXADDR_SIZE := 0x200000,
    MODULES_VADDR := 0xffffffbffc000000, MODULES_END := 0xffffffc000000000,
    KASAN_SHADOW_START := 0, KASAN_SHADOW_END := 0,
    VMEMMAP_START := 0xffffffbc00000000, VMEMMAP_SIZE := 0x200000000,
    VMALLOC_START := 0xffffff8000000000, VMALLOC_END := 0xffffffbbfffeffff,
    PAGE_OFFSET := 0xffffffc000000000, PKMAP_BASE := 0, LAST_PKMAP := 0 }

/-- The execution-context snapshot of the specification's example. -/
def mm_snapshot : MM :=
  { env_start := 0x1000, env_end := 0x1040, arg_start := 0x2000, arg_end := 0x2010,
    start_stack := 0x7fff0000, start_brk := 0x5000, brk := 0x6000,
    start_data := 0x3000, end_data := 0x3100, start_code := 0x4000, end_code := 0x4500,
    map_count := 12 }

/-- The context of a process whose memory descriptor is the snapshot. -/
def task_snapshot : Task := { mm := some mm_snapshot }

/-- A context without a memory descriptor, such as a kernel thread. -/
def task_without_mm : Task := { mm := none }

end KernelVas

namespace KernelVas

theorem ptrdiff_of_small (bits low hi : Nat) (hb : bits = 32 ∨ bits = 64)
    (hle : low ≤ hi) (hhi : hi < 2 ^ bits) (hd : hi - low < 2 ^ (bits - 1)) :
    ptrdiff bits hi low = ((hi - low : Nat) : Int) := by
  unfold ptrdiff toSigned
  have e : (((hi : Int) - (low : Int)) % (2 : Int) ^ bits).toNat = hi - low := by
    rcases hb with rfl | rfl <;> norm_num at * <;> omega
  rw [e]
  have m : (hi - low) % 2 ^ bits = hi - low := by
    apply Nat.mod_eq_of_lt
    rcases hb with rfl | rfl <;> norm_num at * <;> omega
  rw [m, if_pos hd]

theorem zu_shift_of_nat (bits d k : Nat) (hd : d < 2 ^ bits) :
    zu bits (asr ((d : Nat) : Int) k) = d / 2 ^ k := by
  unfold zu asr
  have h1 : Int.shiftRight ((d : Nat) : Int) k = (((d / 2 ^ k : Nat)) : Int) := by
    show ((d : Nat) : Int) >>> k = _
    rw [Int.shiftRight_eq_div_pow]; norm_cast
  rw [h1]
  have h2 : d / 2 ^ k < 2 ^ bits := lt_of_le_of_lt (Nat.div_le_self _ _) hd
  have h3 : (((d / 2 ^ k : Nat) : Int)) % (2 : Int) ^ bits = ((d / 2 ^ k : Nat) : Int) := by
    apply Int.emod_eq_of_lt
    · exact Int.ofNat_nonneg _
    · exact_mod_cast h2
  rw [h3]; exact Int.toNat_natCast _

theorem zu_toSigned (bits d : Nat) (hb : bits = 32 ∨ bits = 64) (hd : d < 2 ^ bits) :
    zu bits (toSigned bits d) = d := by
  unfold zu toSigned
  rw [Nat.mod_eq_of_lt hd]
  rcases hb with rfl | rfl <;> norm_num at * <;> split_ifs <;> omega

theorem ptrdiff_bytes (bits low hi : Nat) (hb : bits = 32 ∨ bits = 64)
    (hle : low ≤ hi) (hhi : hi < 2 ^ bits) :
    zu bits (ptrdiff bits hi low) = hi - low := by
  unfold ptrdiff
  have e : (((hi : Int) - (low : Int)) % (2 : Int) ^ bits).toNat = hi - low := by
    rcases hb with rfl | rfl <;> norm_num at * <;> omega
  rw [e]
  exact zu_toSigned bits (hi - low) hb (lt_of_le_of_lt (Nat.sub_le _ _) hhi)

theorem zu_ptrdiff_shift (bits low hi k : Nat) (hb : bits = 32 ∨ bits = 64)
    (hle : low ≤ hi) (hhi : hi < 2 ^ bits) (hd : hi - low < 2 ^ (bits - 1)) :
    zu bits (asr (ptrdiff bits hi low) k) = (hi - low) / 2 ^ k := by
  rw [ptrdiff_of_small bits low hi hb hle hhi hd]
  exact zu_shift_of_nat bits (hi - low) k (lt_of_le_of_lt (Nat.sub_le _ _) hhi)

/-! ## C1: the SHOW_DELTA_* macros -/

/-- C1, refuted as stated: on a 32-bit build the pair low = 0x40000000, high = 0xe0000000
has low ≤ high, yet the pointer difference is the negative word -1610612736, the value
SHOW_DELTA_MEGA yields is -1536, and `%zu` prints 4294965760 where
floor((high - low) / 2^20) is 2560; on a 64-bit build low = 0, high = 2^63 makes
SHOW_DELTA_KILO print 18437736874454810624 where floor((high - low) / 2^10) is 2^53. -/
theorem C1_scaled_delta_wrong_for_large_difference :
    (0x40000000 : Nat) ≤ 0xe0000000 ∧ (0xe0000000 : Nat) < 2 ^ 32
    ∧ SHOW_DELTA_MEGA 32 0x40000000 0xe0000000
        = [.ptr 0x40000000, .ptr 0xe0000000, .long (-1536)]
    ∧ figures 32 (SHOW_DELTA_MEGA 32 0x40000000 0xe0000000)
        = [some 0x40000000, some 0xe0000000, some 4294965760]
    ∧ (0xe0000000 - 0x40000000) / 2 ^ 20 = 2560
    ∧ figures 32 (SHOW_DELTA_MEGA 32 0x40000000 0xe0000000)
        ≠ [some 0x40000000, some 0xe0000000, some ((0xe0000000 - 0x40000000) / 2 ^ 20)]
    ∧ figures 64 (SHOW_DELTA_KILO 64 0 (2 ^ 63))
        = [some 0, some (2 ^ 63), some 18437736874454810624]
    ∧ figures 64 (SHOW_DELTA_KILO 64 0 (2 ^ 63))
        ≠ [some 0, some (2 ^ 63), some ((2 ^ 63 - 0) / 2 ^ 10)] := by
  refine ⟨by decide, by decide, by decide, by decide, by decide, by decide, by decide, by decide⟩

/-- C1, amended: for a word width of 32 or 64 bits and every pair of words low ≤ high,
SHOW_DELTA_BYTES prints exactly high - low; and whenever high - low is below 2^(bits-1),
the differences a signed word holds, SHOW_DELTA_KILO, SHOW_DELTA_MEGA, SHOW_DELTA_GIGA,
SHOW_DELTA_MEGA_GIGA and SHOW_DELTA_MEGA_GIGA_TERA print the floor of (high - low)
divided by 2^10, 2^20, 2^30 and (on 64-bit, the TERA component) 2^40. -/
theorem C1_show_delta_figures (bits low high : Nat) (hb : bits = 32 ∨ bits = 64)
    (hle : low ≤ high) (hhi : high < 2 ^ bits) :
    figures bits (SHOW_DELTA_BYTES bits low high) = [some low, some high, some (high - low)]
    ∧ (high - low < 2 ^ (bits - 1) →
        figures bits (SHOW_DELTA_KILO bits low high)
          = [some low, some high, some ((high - low) / 2 ^ 10)]
        ∧ figures bits (SHOW_DELTA_MEGA bits low high)
          = [some low, some high, some ((high - low) / 2 ^ 20)]
        ∧ figures bits (SHOW_DELTA_GIGA bits low high)
          = [some low, some high, some ((high - low) / 2 ^ 30)]
        ∧ figures bits (SHOW_DELTA_MEGA_GIGA bits low high)
          = [some low, some high, some ((high - low) / 2 ^ 20), some ((high - low) / 2 ^ 30)]
        ∧ figures bits (SHOW_DELTA_MEGA_GIGA_TERA bits low high)
          = (if bits = 64 then
              [some low, some high, some ((high - low) / 2 ^ 20), some ((high - low) / 2 ^ 30),
                some ((high - low) / 2 ^ 40)]
            else
              [some low, some high, some ((high - low) / 2 ^ 20),
                some ((high - low) / 2 ^ 30)])) := by
  have hB := ptrdiff_bytes bits low high hb hle hhi
  refine ⟨?_, fun hd => ?_⟩
  · simp only [figures, SHOW_DELTA_BYTES, List.map, CVal.figure, hB]
  · have h10 := zu_ptrdiff_shift bits low high 10 hb hle hhi hd
    have h20 := zu_ptrdiff_shift bits low high 20 hb hle hhi hd
    have h30 := zu_ptrdiff_shift bits low high 30 hb hle hhi hd
    have h40 := zu_ptrdiff_shift bits low high 40 hb hle hhi hd
    refine ⟨?_, ?_, ?_, ?_, ?_⟩
    · simp only [figures, SHOW_DELTA_KILO, List.map, CVal.figure, h10]
    · simp only [figures, SHOW_DELTA_MEGA, List.map, CVal.figure, h20]
    · simp only [figures, SHOW_DELTA_GIGA, List.map, CVal.figure, h30]
    · simp only [figures, SHOW_DELTA_MEGA_GIGA, List.map, CVal.figure, h20, h30]
    · by_cases h : bits = 64
      · have hbeq : (bits == 64) = true := by simp [h]
        simp only [figures, SHOW_DELTA_MEGA_GIGA_TERA, hbeq, if_true, if_pos h, List.map,
          CVal.figure, h20, h30, h40]
      · have hbeq : (bits == 64) = false := by simp [h]
        simp only [figures, SHOW_DELTA_MEGA_GIGA_TERA, hbeq, if_neg h, List.map,
          CVal.figure, h20, h30]

/-- Witness of C1: the text segment of the specification's example on a 64-bit build. -/
theorem C1_show_delta_figures_witness :
    ((64 : Nat) = 32 ∨ (64 : Nat) = 64) ∧ (0x4000 : Nat) ≤ 0x4500 ∧ (0x4500 : Nat) < 2 ^ 64
    ∧ (0x4500 - 0x4000 : Nat) < 2 ^ (64 - 1)
    ∧ figures 64 (SHOW_DELTA_BYTES 64 0x4000 0x4500) = [some 0x4000, some 0x4500, some 1280]
    ∧ figures 64 (SHOW_DELTA_KILO 64 0x4000 0x4500) = [some 0x4000, some 0x4500, some 1] := by
  have h := C1_show_delta_figures 64 0x4000 0x4500 (Or.inr rfl) (by decide) (by decide)
  exact ⟨Or.inr rfl, by decide, by decide, by decide, h.1, (h.2 (by decide)).1⟩

/-! ## C2: the specification's example snapshot -/

/-- C2, refuted as stated: for the example snapshot the size handed to the format string
for the text segment is 1 (kilobyte, under the label KB), not 1280, on 64-bit and on
32-bit builds alike; the full list of printed figures is the one shown. -/
theorem C2_text_size_is_one_kilobyte :
    ((show_userspace_info cfg_x86_64 kernel_x86_64 mm_snapshot).head?.map
        (fun r => figures 64 r.args))
      = some [some 0x1000, some 0x1040, some 64, some 0x2000, some 0x2010, some 16,
          some 0x7fff0000, some 0x5000, some 0x6000, some 4, some 0x3000, some 0x3100,
          some 256, some 0x4000, some 0x4500, some 1]
    ∧ ((show_userspace_info cfg_x86_64 kernel_x86_64 mm_snapshot).head?.map
        (fun r => figures 64 r.args))
      ≠ some [some 0x1000, some 0x1040, some 64, some 0x2000, some 0x2010, some 16,
          some 0x7fff0000, some 0x5000, some 0x6000, some 4, some 0x3000, some 0x3100,
          some 256, some 0x4000, some 0x4500, some 1280]
    ∧ ((show_userspace_info cfg_arm32 kernel_arm32 mm_snapshot).head?.map
        (fun r => figures 32 r.args))
      ≠ some [some 0x1000, some 0x1040, some 64, some 0x2000, some 0x2010, some 16,
          some 0x7fff0000, some 0x5000, some 0x6000, some 4, some 0x3000, some 0x3100,
          some 256, some 0x4000, some 0x4500, some 1280] := by
  refine ⟨by decide, by decide, by decide⟩

/-- The argument list of the first record of `show_userspace_info`. -/
theorem userspace_args (cfg : Config) (k : Kernel) (mm : MM) :
    (show_userspace_info cfg k mm).head?.map (fun r => r.args)
      = some (SHOW_DELTA_BYTES cfg.BITS_PER_LONG mm.env_start mm.env_end
          ++ SHOW_DELTA_BYTES cfg.BITS_PER_LONG mm.arg_start mm.arg_end
          ++ [.ptr mm.start_stack]
          ++ SHOW_DELTA_KILO cfg.BITS_PER_LONG mm.start_brk mm.brk
          ++ SHOW_DELTA_BYTES cfg.BITS_PER_LONG mm.start_data mm.end_data
          ++ SHOW_DELTA_KILO cfg.BITS_PER_LONG mm.start_code mm.end_code) := rfl

/-- C2, amended: for the example snapshot, on every 32-bit or 64-bit build and whatever the
kernel constants, the figures handed to the format string of the user-space report are, in
order: environment 0x1000, 0x1040 and 64 bytes; arguments 0x2000, 0x2010 and 16 bytes; stack
start 0x7fff0000; heap 0x5000, 0x6000 and 4 KB (4096 bytes); static data 0x3000, 0x3100 and
256 bytes; text 0x4000, 0x4500 and 1 KB, the floor of 1280 bytes over 1024. -/
theorem C2_snapshot_figures (cfg : Config) (k : Kernel)
    (hb : cfg.BITS_PER_LONG = 32 ∨ cfg.BITS_PER_LONG = 64) :
    ((show_userspace_info cfg k mm_snapshot).head?.map
        (fun r => figures cfg.BITS_PER_LONG r.args))
      = some [some 0x1000, some 0x1040, some 64, some 0x2000, some 0x2010, some 16,
          some 0x7fff0000, some 0x5000, some 0x6000, some 4, some 0x3000, some 0x3100,
          some 256, some 0x4000, some 0x4500, some (1280 / 1024)] := by
  have h := userspace_args cfg k mm_snapshot
  rcases hb with hb | hb
  · cases hh : (show_userspace_info cfg k mm_snapshot).head? with
    | none => rw [hh] at h; simp at h
    | some r =>
      rw [hh] at h
      simp only [Option.map_some', Option.some.injEq] at h
      simp only [Option.map_some', h, hb]
      decide
  · cases hh : (show_userspace_info cfg k mm_snapshot).head? with
    | none => rw [hh] at h; simp at h
    | some r =>
      rw [hh] at h
      simp only [Option.map_some', Option.some.injEq] at h
      simp only [Option.map_some', h, hb]
      decide

/-- Witness of C2: the x86-64 sample build. -/
theorem C2_snapshot_figures_witness :
    (cfg_x86_64.BITS_PER_LONG = 32 ∨ cfg_x86_64.BITS_PER_LONG = 64)
    ∧ ((show_userspace_info cfg_x86_64 kernel_x86_64 mm_snapshot).head?.map
        (fun r => figures 64 r.args))
      = some [some 0x1000, some 0x1040, some 64, some 0x2000, some 0x2010, some 16,
          some 0x7fff0000, some 0x5000, some 0x6000, some 4, some 0x3000, some 0x3100,
          some 256, some 0x4000, some 0x4500, some (1280 / 1024)] :=
  ⟨Or.inr rfl, C2_snapshot_figures cfg_x86_64 kernel_x86_64 (Or.inr rfl)⟩

/-! ## C8 and C9: the RAM and TASK_SIZE figures -/

/-- The first record of `show_kernelvas_info`: page size, the MB figure, the byte figure. -/
theorem kernelvas_first_record (cfg : Config) (k : Kernel) :
    (show_kernelvas_info cfg k).head?
      = some ⟨"PAGE_SIZE = %lu, total RAM ~= %lu MB (%lu bytes)\n",
          [.ulong k.PAGE_SIZE, .ulong (ram_size cfg k / 1038336), .ulong (ram_size cfg k)]⟩ := rfl

/-- C8, evaluated at the failing input: with 262144 pages of 4096 bytes, ram_size is
2^30 bytes, whose floor over 2^20 is 1024, and the figure logged under the label MB is 1034,
the quotient by 1014 * 1024 = 1038336. -/
theorem C8_ram_megabytes_divides_by_1014_times_1024 :
    ram_size cfg_x86_64 kernel_x86_64 = 2 ^ 30
    ∧ (show_kernelvas_info cfg_x86_64 kernel_x86_64).head?.map
        (fun r => figures 64 r.args) = some [some 4096, some 1034, some (2 ^ 30)]
    ∧ 2 ^ 30 / 2 ^ 20 = 1024
    ∧ (1034 : Nat) ≠ 2 ^ 30 / 2 ^ 20 := by
  refine ⟨by decide, by decide, by decide, by decide⟩

/-- The second record of `show_userspace_info` on a build that is not 64-bit. -/
theorem userspace_task_size_record_32 (cfg : Config) (k : Kernel) (mm : MM)
    (hb : cfg.BITS_PER_LONG = 32) :
    (show_userspace_info cfg k mm).tail.head?.map (fun r => r.args)
      = some [.ulong k.TASK_SIZE, .ulong (k.TASK_SIZE / 2 ^ 20), .int mm.map_count] := by
  simp [show_userspace_info, hb, Nat.shiftRight_eq_div_pow]

/-- The second record of `show_userspace_info` on a 64-bit build. -/
theorem userspace_task_size_record_64 (cfg : Config) (k : Kernel) (mm : MM)
    (hb : cfg.BITS_PER_LONG = 64) :
    (show_userspace_info cfg k mm).tail.head?.map (fun r => r.args)
      = some [.ulong k.TASK_SIZE, .ulong (k.TASK_SIZE / 2 ^ 30), .int mm.map_count] := by
  simp [show_userspace_info, hb, Nat.shiftRight_eq_div_pow]

/-- C9, evaluated at the failing input: on the 32-bit sample build, TASK_SIZE = 0xc0000000
has floor over 2^30 equal to 3, and the figure logged under the label GB is 3072, the
floor over 2^20; the byte figure before it is TASK_SIZE. -/
theorem C9_task_size_gigabytes_shifted_by_20_on_32_bit :
    (show_userspace_info cfg_arm32 kernel_arm32 mm_snapshot).tail.head?
      = some ⟨"Size of User VAS size (TASK_SIZE) = %10lu bytes            [  %lu GB]\n"
              ++ " # userspace memory regions (VMAs) = %d\n",
          [.ulong 0xc0000000, .ulong 3072, .int 12]⟩
    ∧ 0xc0000000 / 2 ^ 30 = 3
    ∧ (3072 : Nat) ≠ 0xc0000000 / 2 ^ 30 := by
  refine ⟨by decide, by decide, by decide⟩



/-! ## C5 and C10: the message of minsysinfo -/

theorem strlcat_fit (dst src : String) (n : Nat) (h : dst.length + src.length ≤ n - 1) :
    strlcat dst src n = dst ++ src := by
  apply String.ext
  have h2 : src.data.length ≤ n - 1 - dst.data.length := by
    simp only [String.length] at h; omega
  show dst.data ++ src.data.take (n - 1 - dst.data.length) = (dst ++ src).data
  rw [String.data_append, List.take_of_length_le h2]

theorem tok_length_le (b : Bool) (tag : String) : (tok b tag).length ≤ tag.length := by
  cases b <;> simp [tok]

theorem step_eq (m tag : String) (b : Bool) (h : m.length + tag.length ≤ MSGLEN - 1) :
    (if b = true then strlcat m tag MSGLEN else m) = m ++ tok b tag := by
  cases b
  · apply String.ext; simp [tok, String.data_append]
  · simp [tok, strlcat_fit m tag MSGLEN h]

theorem minsysinfo_msg_eq_plain (cfg : Config) :
    minsysinfo_msg cfg = spec_plain_message cfg
    ∧ (minsysinfo_msg cfg).length ≤ MSGLEN - 1 := by
  have h0 : snprintf 48 minsysinfo_head = minsysinfo_head := by decide
  have hl0 : minsysinfo_head.length = 42 := by decide
  have hM : MSGLEN - 1 = 127 := by decide
  unfold minsysinfo_msg spec_plain_message spec_family_text spec_endian_tag spec_width_tag
  generalize cfg.CONFIG_X86 = b1
  generalize cfg.CONFIG_ARM = b2
  generalize cfg.CONFIG_ARM64 = b3
  generalize cfg.CONFIG_MIPS = b4
  generalize cfg.CONFIG_PPC = b5
  generalize cfg.CONFIG_S390 = b6
  generalize cfg.BIG_ENDIAN = b7
  generalize (cfg.BITS_PER_LONG == 32) = e32
  generalize (cfg.BITS_PER_LONG == 64) = e64
  dsimp only
  rw [h0]
  have h1 : (if b1 = true then
        (if e32 = true then strlcat minsysinfo_head "x86_32, " MSGLEN
         else strlcat minsysinfo_head "x86_64, " MSGLEN)
      else minsysinfo_head)
      = minsysinfo_head ++ tok b1 (if e32 = true then "x86_32, " else "x86_64, ") := by
    cases b1 <;> cases e32 <;> decide
  rw [h1]
  generalize ht1 : tok b1 (if e32 = true then "x86_32, " else "x86_64, ") = t1
  have l1 : t1.length ≤ 8 := by
    subst ht1; cases b1 <;> cases e32 <;> decide
  have e2 := step_eq (minsysinfo_head ++ t1) "ARM-32, " b2 (by
    rw [String.length_append, hl0, hM]; have : ("ARM-32, ").length = 8 := by decide
    omega)
  rw [e2]
  have l2 := tok_length_le b2 "ARM-32, "
  have c2 : ("ARM-32, ").length = 8 := by decide
  generalize tok b2 "ARM-32, " = t2 at l2 ⊢
  have c3 : ("Aarch64, ").length = 9 := by decide
  have e3 := step_eq (minsysinfo_head ++ t1 ++ t2) "Aarch64, " b3 (by
    simp only [String.length_append, hl0, hM]; omega)
  rw [e3]
  have l3 := tok_length_le b3 "Aarch64, "
  generalize tok b3 "Aarch64, " = t3 at l3 ⊢
  have c4 : ("MIPS, ").length = 6 := by decide
  have e4 := step_eq (minsysinfo_head ++ t1 ++ t2 ++ t3) "MIPS, " b4 (by
    simp only [String.length_append, hl0, hM]; omega)
  rw [e4]
  have l4 := tok_length_le b4 "MIPS, "
  generalize tok b4 "MIPS, " = t4 at l4 ⊢
  have c5 : ("PowerPC, ").length = 9 := by decide
  have e5 := step_eq (minsysinfo_head ++ t1 ++ t2 ++ t3 ++ t4) "PowerPC, " b5 (by
    simp only [String.length_append, hl0, hM]; omega)
  rw [e5]
  have l5 := tok_length_le b5 "PowerPC, "
  generalize tok b5 "PowerPC, " = t5 at l5 ⊢
  have c6 : ("IBM S390, ").length = 10 := by decide
  have e6 := step_eq (minsysinfo_head ++ t1 ++ t2 ++ t3 ++ t4 ++ t5) "IBM S390, " b6 (by
    simp only [String.length_append, hl0, hM]; omega)
  rw [e6]
  have l6 := tok_length_le b6 "IBM S390, "
  generalize tok b6 "IBM S390, " = t6 at l6 ⊢
  generalize hm : minsysinfo_head ++ t1 ++ t2 ++ t3 ++ t4 ++ t5 ++ t6 = m
  have lm : m.length ≤ 92 := by
    subst hm; simp only [String.length_append, hl0]; omega
  have c7 : ("big-endian; ").length = 12 := by decide
  have c8 : ("little-endian; ").length = 15 := by decide
  have c9 : ("32-bit OS.\n").length = 11 := by decide
  have c10 : ("64-bit OS.\n").length = 11 := by decide
  have e7 : (if b7 = true then strlcat m "big-endian; " MSGLEN
      else strlcat m "little-endian; " MSGLEN)
      = m ++ (if b7 = true then "big-endian; " else "little-endian; ") := by
    cases b7
    · simp [strlcat_fit m "little-endian; " MSGLEN (by rw [hM]; omega)]
    · simp [strlcat_fit m "big-endian; " MSGLEN (by rw [hM]; omega)]
  rw [e7]
  generalize hE : (if b7 = true then "big-endian; " else "little-endian; ") = tE
  have lE : tE.length ≤ 15 := by subst hE; cases b7 <;> decide
  generalize hm2 : m ++ tE = m2
  have lm2 : m2.length ≤ 107 := by
    subst hm2; simp only [String.length_append]; omega
  have e8 : (if e32 = true then strlcat m2 "32-bit OS.\n" MSGLEN
      else if e64 = true then strlcat m2 "64-bit OS.\n" MSGLEN else m2)
      = m2 ++ (if e32 = true then "32-bit OS.\n" else if e64 = true then "64-bit OS.\n"
          else "") := by
    cases e32
    · cases e64
      · apply String.ext; simp [String.data_append]
      · simp [strlcat_fit m2 "64-bit OS.\n" MSGLEN (by rw [hM]; omega)]
    · simp [strlcat_fit m2 "32-bit OS.\n" MSGLEN (by rw [hM]; omega)]
  rw [e8]
  generalize hW : (if e32 = true then "32-bit OS.\n" else if e64 = true then "64-bit OS.\n"
      else "") = tW
  have lW : tW.length ≤ 11 := by subst hW; cases e32 <;> cases e64 <;> decide
  refine ⟨?_, ?_⟩
  · subst hm2 hm
    apply String.ext
    simp only [String.data_append, List.append_assoc]
  · simp only [String.length_append, hM]; omega


theorem startsWith_append (pat t b : List Char) (h : startsWith pat t = true) :
    startsWith pat (t ++ b) = true := by
  induction pat generalizing t with
  | nil => simp [startsWith]
  | cons p ps ih =>
    cases t with
    | nil => simp [startsWith] at h
    | cons c cs =>
      simp only [startsWith, Bool.and_eq_true] at h
      simp only [List.cons_append, startsWith, Bool.and_eq_true]
      exact ⟨h.1, ih cs h.2⟩

theorem startsWith_append_false (pat t b : List Char) (h1 : startsWith pat t = false)
    (h2 : startsWith t pat = false) : startsWith pat (t ++ b) = false := by
  induction pat generalizing t with
  | nil => simp [startsWith] at h1
  | cons p ps ih =>
    cases t with
    | nil => simp [startsWith] at h2
    | cons c cs =>
      simp only [startsWith, Bool.and_eq_false_iff] at h1 h2
      simp only [List.cons_append, startsWith, Bool.and_eq_false_iff]
      rcases h1 with h1 | h1
      · exact Or.inl h1
      · rcases h2 with h2 | h2
        · left
          simp only [beq_eq_false_iff_ne, ne_eq] at h2 ⊢
          exact fun e => h2 e.symm
        · exact Or.inr (ih cs h1 h2)

theorem startsWith_append_eq (pat t b : List Char)
    (h : (startsWith pat t || !startsWith t pat) = true) :
    startsWith pat (t ++ b) = startsWith pat t := by
  cases h1 : startsWith pat t with
  | true => exact startsWith_append pat t b h1
  | false =>
    rw [h1] at h
    simp only [Bool.false_or, Bool.not_eq_true'] at h
    exact startsWith_append_false pat t b h1 h

theorem countOcc_append (pat t b : List Char) (h : noStraddle pat t = true) :
    countOcc pat (t ++ b) = countOcc pat t + countOcc pat b := by
  induction t with
  | nil => simp [countOcc]
  | cons c cs ih =>
    simp only [noStraddle, Bool.and_eq_true] at h
    have e : startsWith pat (c :: (cs ++ b)) = startsWith pat (c :: cs) :=
      startsWith_append_eq pat (c :: cs) b h.1
    rw [List.cons_append, countOcc, countOcc, e, ih h.2]
    omega

theorem countOcc_flat (pat : List Char) (ts : List (List Char))
    (h : ∀ t ∈ ts, noStraddle pat t = true) :
    countOcc pat (flat ts) = (ts.map (countOcc pat)).sum := by
  induction ts with
  | nil => simp [flat, countOcc]
  | cons t ts ih =>
    simp only [flat, List.map_cons, List.sum_cons]
    rw [countOcc_append pat t (flat ts) (h t (List.mem_cons_self _ _)),
      ih (fun u hu => h u (List.mem_cons_of_mem _ hu))]

set_option maxRecDepth 100000 in
theorem table_noStraddle :
    ∀ p ∈ counted_tags, ∀ t ∈ vocabulary, noStraddle p.data t.data = true := by
  decide

set_option maxRecDepth 100000 in
theorem table_count :
    ∀ p ∈ counted_tags, ∀ t ∈ vocabulary,
      countOcc p.data t.data = (if t = p then 1 else 0) := by
  decide

theorem tokens_in_vocabulary (cfg : Config) : ∀ t ∈ msg_tokens cfg, t ∈ vocabulary := by
  intro t ht
  simp only [msg_tokens, List.mem_cons, List.mem_singleton, List.not_mem_nil, or_false] at ht
  unfold tok spec_endian_tag spec_width_tag at ht
  rcases ht with rfl | rfl | rfl | rfl | rfl | rfl | rfl | rfl | rfl <;>
    first | decide | (split_ifs <;> decide)

theorem plain_message_data (cfg : Config) :
    (spec_plain_message cfg).data = flat ((msg_tokens cfg).map String.data) := by
  simp only [spec_plain_message, spec_family_text, msg_tokens, String.data_append, List.map,
    flat, List.append_assoc, List.append_nil]

theorem sum_indicator (p : String) (ts : List String) :
    (ts.map (fun t => if t = p then 1 else 0)).sum = ts.count p := by
  induction ts with
  | nil => simp
  | cons t ts ih =>
    simp only [List.map_cons, List.sum_cons, ih, List.count_cons]
    by_cases h : t = p <;> simp [h, Nat.add_comm]

theorem countOcc_message (cfg : Config) (p : String) (hp : p ∈ counted_tags) :
    countOcc p.data (minsysinfo_msg cfg).data = (msg_tokens cfg).count p := by
  rw [(minsysinfo_msg_eq_plain cfg).1, plain_message_data,
    countOcc_flat p.data _ (by
      intro t ht
      obtain ⟨u, hu, rfl⟩ := List.mem_map.1 ht
      exact table_noStraddle p hp u (tokens_in_vocabulary cfg u hu)),
    List.map_map, ← sum_indicator]
  apply congrArg
  apply List.map_congr_left
  intro u hu
  exact table_count p hp u (tokens_in_vocabulary cfg u hu)


theorem tag_count_message (cfg : Config) (tags : List String)
    (h : ∀ p ∈ tags, p ∈ counted_tags) :
    tag_count tags (minsysinfo_msg cfg) = (tags.map (fun p => (msg_tokens cfg).count p)).sum := by
  unfold tag_count
  apply congrArg
  apply List.map_congr_left
  intro p hp
  exact countOcc_message cfg p (h p hp)

set_option maxRecDepth 100000 in
/-- How often each tag is among the pieces of the message, over all builds. -/
theorem token_counts (cfg : Config) :
    (all_family_tags.map (fun p => (msg_tokens cfg).count p)).sum = family_flags_set cfg
    ∧ (msg_tokens cfg).count "x86_32, "
        = (if cfg.CONFIG_X86 && cfg.BITS_PER_LONG == 32 then 1 else 0)
    ∧ (msg_tokens cfg).count "x86_64, "
        = (if cfg.CONFIG_X86 && !(cfg.BITS_PER_LONG == 32) then 1 else 0)
    ∧ (msg_tokens cfg).count "ARM-32, " = (if cfg.CONFIG_ARM then 1 else 0)
    ∧ (msg_tokens cfg).count "Aarch64, " = (if cfg.CONFIG_ARM64 then 1 else 0)
    ∧ (msg_tokens cfg).count "MIPS, " = (if cfg.CONFIG_MIPS then 1 else 0)
    ∧ (msg_tokens cfg).count "PowerPC, " = (if cfg.CONFIG_PPC then 1 else 0)
    ∧ (msg_tokens cfg).count "IBM S390, " = (if cfg.CONFIG_S390 then 1 else 0)
    ∧ (msg_tokens cfg).count "big-endian; " = (if cfg.BIG_ENDIAN then 1 else 0)
    ∧ (msg_tokens cfg).count "little-endian; " = (if cfg.BIG_ENDIAN then 0 else 1)
    ∧ (msg_tokens cfg).count "32-bit OS.\n" = (if cfg.BITS_PER_LONG == 32 then 1 else 0)
    ∧ (msg_tokens cfg).count "64-bit OS.\n"
        = (if !(cfg.BITS_PER_LONG == 32) && cfg.BITS_PER_LONG == 64 then 1 else 0) := by
  unfold msg_tokens family_flags_set spec_endian_tag spec_width_tag
  generalize (cfg.BITS_PER_LONG == 32) = e32
  generalize (cfg.BITS_PER_LONG == 64) = e64
  generalize cfg.CONFIG_X86 = b1
  generalize cfg.CONFIG_ARM = b2
  generalize cfg.CONFIG_ARM64 = b3
  generalize cfg.CONFIG_MIPS = b4
  generalize cfg.CONFIG_PPC = b5
  generalize cfg.CONFIG_S390 = b6
  generalize cfg.BIG_ENDIAN = b7
  revert e32 e64 b1 b2 b3 b4 b5 b6 b7
  decide


set_option maxRecDepth 100000 in
/-- C5, refuted as stated: a 64-bit little-endian build that sets none of the six family
flags (any family the source does not list) gets the message
"minsysinfo(): minimal platform info:\nCPU: little-endian; 64-bit OS.\n", with no family
tag at all; a build that sets both CONFIG_X86 and CONFIG_ARM gets two. -/
theorem C5_no_family_tag_without_family_flag :
    minsysinfo_msg cfg_other64
      = "minsysinfo(): minimal platform info:\nCPU: little-endian; 64-bit OS.\n"
    ∧ tag_count all_family_tags (minsysinfo_msg cfg_other64) = 0
    ∧ tag_count all_family_tags (minsysinfo_msg cfg_other64) ≠ 1
    ∧ minsysinfo_msg { cfg_x86_64 with CONFIG_ARM := true }
      = "minsysinfo(): minimal platform info:\nCPU: x86_64, ARM-32, little-endian; 64-bit OS.\n"
    ∧ tag_count all_family_tags (minsysinfo_msg { cfg_x86_64 with CONFIG_ARM := true }) = 2 := by
  refine ⟨by decide, by decide, by decide, by decide, by decide⟩

/-- C5, amended: for every assignment of the six family flags and of endianness, with
BITS_PER_LONG 32 or 64, the message of minsysinfo is the head followed by one family tag for
each family flag that is set (x86_32 or x86_64 by word width, ARM-32, Aarch64, MIPS, PowerPC,
IBM S390, in this order), so the number of family tags in the message equals the number of
family flags set, which is exactly one, the configured family's, when exactly one flag is
set; then exactly one endianness tag, the build's; then exactly one word-width tag, the one
matching BITS_PER_LONG. -/
theorem C5_family_tags_follow_flags (cfg : Config)
    (hb : cfg.BITS_PER_LONG = 32 ∨ cfg.BITS_PER_LONG = 64) :
    minsysinfo_msg cfg
      = minsysinfo_head ++ spec_family_text cfg ++ spec_endian_tag cfg ++ spec_width_tag cfg
    ∧ tag_count all_family_tags (minsysinfo_msg cfg) = family_flags_set cfg
    ∧ (family_flags_set cfg = 1 → tag_count all_family_tags (minsysinfo_msg cfg) = 1)
    ∧ tag_count ["x86_32, "] (minsysinfo_msg cfg)
        = (if cfg.CONFIG_X86 = true ∧ cfg.BITS_PER_LONG = 32 then 1 else 0)
    ∧ tag_count ["x86_64, "] (minsysinfo_msg cfg)
        = (if cfg.CONFIG_X86 = true ∧ cfg.BITS_PER_LONG = 64 then 1 else 0)
    ∧ tag_count ["ARM-32, "] (minsysinfo_msg cfg) = (if cfg.CONFIG_ARM then 1 else 0)
    ∧ tag_count ["Aarch64, "] (minsysinfo_msg cfg) = (if cfg.CONFIG_ARM64 then 1 else 0)
    ∧ tag_count ["MIPS, "] (minsysinfo_msg cfg) = (if cfg.CONFIG_MIPS then 1 else 0)
    ∧ tag_count ["PowerPC, "] (minsysinfo_msg cfg) = (if cfg.CONFIG_PPC then 1 else 0)
    ∧ tag_count ["IBM S390, "] (minsysinfo_msg cfg) = (if cfg.CONFIG_S390 then 1 else 0)
    ∧ tag_count ["big-endian; "] (minsysinfo_msg cfg) = (if cfg.BIG_ENDIAN then 1 else 0)
    ∧ tag_count ["little-endian; "] (minsysinfo_msg cfg) = (if cfg.BIG_ENDIAN then 0 else 1)
    ∧ tag_count ["32-bit OS.\n"] (minsysinfo_msg cfg)
        = (if cfg.BITS_PER_LONG = 32 then 1 else 0)
    ∧ tag_count ["64-bit OS.\n"] (minsysinfo_msg cfg)
        = (if cfg.BITS_PER_LONG = 64 then 1 else 0) := by
  obtain ⟨t0, t1, t2, t3, t4, t5, t6, t7, t8, t9, t10, t11⟩ := token_counts cfg
  have one : ∀ p, p ∈ counted_tags →
      tag_count [p] (minsysinfo_msg cfg) = (msg_tokens cfg).count p := by
    intro p hp
    rw [tag_count_message cfg [p] (by simpa using hp)]
    simp
  have hfam : tag_count all_family_tags (minsysinfo_msg cfg) = family_flags_set cfg := by
    rw [tag_count_message cfg all_family_tags (by decide), t0]
  refine ⟨(minsysinfo_msg_eq_plain cfg).1, hfam, fun h => by rw [hfam, h], ?_, ?_, ?_, ?_, ?_,
    ?_, ?_, ?_, ?_, ?_, ?_⟩
  · rw [one _ (by decide), t1]; rcases hb with hb | hb <;> simp [hb]
  · rw [one _ (by decide), t2]; rcases hb with hb | hb <;> simp [hb]
  · rw [one _ (by decide), t3]
  · rw [one _ (by decide), t4]
  · rw [one _ (by decide), t5]
  · rw [one _ (by decide), t6]
  · rw [one _ (by decide), t7]
  · rw [one _ (by decide), t8]
  · rw [one _ (by decide), t9]
  · rw [one _ (by decide), t10]; rcases hb with hb | hb <;> simp [hb]
  · rw [one _ (by decide), t11]; rcases hb with hb | hb <;> simp [hb]

set_option maxRecDepth 100000 in
/-- Witness of C5: the ARM-32 sample build sets one family flag and has exactly one family
tag, ARM-32. -/
theorem C5_family_tags_follow_flags_witness :
    (cfg_arm32.BITS_PER_LONG = 32 ∨ cfg_arm32.BITS_PER_LONG = 64)
    ∧ family_flags_set cfg_arm32 = 1
    ∧ minsysinfo_msg cfg_arm32
      = "minsysinfo(): minimal platform info:\nCPU: ARM-32, little-endian; 32-bit OS.\n"
    ∧ tag_count all_family_tags (minsysinfo_msg cfg_arm32) = 1
    ∧ tag_count ["ARM-32, "] (minsysinfo_msg cfg_arm32) = 1 := by
  have h := C5_family_tags_follow_flags cfg_arm32 (Or.inl rfl)
  exact ⟨Or.inl rfl, by decide, h.1.trans (by decide), h.2.2.1 (by decide), h.2.2.2.2.2.1⟩

/-- C10: for every combination of the family, endianness and word-width flags, several
family flags at once included, the head that snprintf writes has 42 characters, below its
limit of 48, so it is not cut; the buffer after all strlcat calls has at most
MSGLEN - 1 = 127 characters; and the message logged is the plain concatenation of the head,
the selected family tags, the endianness tag and the word-width tag. -/
theorem C10_message_never_truncated (cfg : Config) :
    minsysinfo_head = "minsysinfo(): minimal platform info:\nCPU: "
    ∧ minsysinfo_head.length = 42
    ∧ minsysinfo_head.length < 48
    ∧ snprintf 48 minsysinfo_head = minsysinfo_head
    ∧ MSGLEN - 1 = 127
    ∧ (minsysinfo_msg cfg).length ≤ MSGLEN - 1
    ∧ minsysinfo_msg cfg
        = minsysinfo_head ++ spec_family_text cfg ++ spec_endian_tag cfg ++ spec_width_tag cfg
    ∧ minsysinfo cfg
        = [⟨"%s", [.str (minsysinfo_head ++ spec_family_text cfg ++ spec_endian_tag cfg
              ++ spec_width_tag cfg)]⟩] := by
  obtain ⟨h1, h2⟩ := minsysinfo_msg_eq_plain cfg
  refine ⟨by decide, by decide, by decide, by decide, by decide, h2, h1, ?_⟩
  unfold minsysinfo
  rw [h1]
  rfl


/-! ## C3 and C4: the init entry point -/

theorem rec_ne_of_key (r r2 : Rec) (h : fmtKey r.fmt ≠ fmtKey r2.fmt) : r ≠ r2 :=
  fun e => h (by rw [e])

set_option maxRecDepth 100000 in
theorem userspace_fmt_facts (bits : Nat) :
    fmtKey (userspace_fmt bits) = fmtKey "+------- "
    ∧ hasKernelLabel (userspace_fmt bits) = false := by
  unfold userspace_fmt
  cases (bits == 64) <;> exact ⟨by decide, by decide⟩

set_option maxRecDepth 100000 in
theorem task_size_fmt_facts (bits : Nat) :
    (fmtKey (task_size_fmt bits) = fmtKey "Kernel, U"
      ∨ fmtKey (task_size_fmt bits) = fmtKey "Size of U")
    ∧ hasKernelLabel (task_size_fmt bits) = false := by
  unfold task_size_fmt
  cases (bits == 64)
  · exact ⟨Or.inr (by decide), by decide⟩
  · exact ⟨Or.inl (by decide), by decide⟩

/-- Counting in a log of the shape the init entry point produces. -/
theorem emissions_shape (I M U1 U2 S1 S2 : Rec)
    (h1 : M ≠ I) (h2 : M ≠ U1) (h3 : M ≠ U2) (h4 : M ≠ S1) (h5 : M ≠ S2)
    (h6 : U1 ≠ I) (h7 : U1 ≠ U2) (h8 : U1 ≠ S1) (h9 : U1 ≠ S2) :
    emissions [M] [I, M, U1, U2, U1, U2] = 1
    ∧ emissions [M] [I, M, U1, U2, S1, S2] = 1
    ∧ emissions [U1, U2] [I, M, U1, U2, U1, U2] = 2
    ∧ emissions [U1, U2] [I, M, U1, U2, S1, S2] = 1 := by
  have h2s : U1 ≠ M := fun e => h2 e.symm
  simp [emissions, blockAt, h1, h2, h3, h4, h5, h6, h7, h8, h9, h2s]

theorem occurrences_of_no_label (out : List Rec) (h : kernel_part out = [])
    (l : String) (hl : l ∈ kernel_region_labels) : occurrences l out = 0 := by
  unfold occurrences
  apply List.sum_eq_zero
  intro n hn
  obtain ⟨r, hr, rfl⟩ := List.mem_map.1 hn
  have hf : hasKernelLabel r.fmt = false := by
    by_contra hc
    have hm : r ∈ kernel_part out := by
      unfold kernel_part
      exact List.mem_filter.2 ⟨hr, by simpa using hc⟩
    rw [h] at hm
    exact List.not_mem_nil _ hm
  unfold hasKernelLabel at hf
  have := (List.any_eq_false.1 hf) l hl
  simpa using this

/-- The init entry point in a context that has a memory descriptor: it returns 0. -/
theorem init_with_mm (cfg : Config) (k : Kernel) (current : Task) (mm : MM) (s : Int)
    (h : current.mm = some mm) :
    kernel_vas_init cfg k current s
      = .returned 0
          ([⟨"%s: kernel_vas is INSERTED\n", [.str k.KBUILD_MODNAME]⟩]
            ++ minsysinfo cfg
            ++ show_userspace_info cfg k mm
            ++ (if s ≠ 0 then show_userspace_info cfg k mm
                else
                  [⟨"+-------------------------------------------------------------+\n", []⟩,
                   ⟨"%s: skipping show userspace...\n", [.str k.KBUILD_MODNAME]⟩])) := by
  unfold kernel_vas_init show_userspace_info_current
  rw [h]
  by_cases hs : s = 0 <;> simp [hs]

/-- The init entry point in a context without a memory descriptor: it faults in the first
call of `show_userspace_info`, after the insertion notice and the message of `minsysinfo`. -/
theorem init_without_mm (cfg : Config) (k : Kernel) (current : Task) (s : Int)
    (h : current.mm = none) :
    kernel_vas_init cfg k current s
      = .faulted ([⟨"%s: kernel_vas is INSERTED\n", [.str k.KBUILD_MODNAME]⟩]
          ++ minsysinfo cfg) := by
  unfold kernel_vas_init show_userspace_info_current
  rw [h]

set_option maxRecDepth 100000 in
/-- The log of the init entry point in a context that has a memory descriptor, whatever the
build and the option. -/
theorem init_facts (cfg : Config) (k : Kernel) (current : Task) (mm : MM) (s : Int)
    (h : current.mm = some mm) :
    (kernel_vas_init cfg k current s).ret = some 0
    ∧ emissions (minsysinfo cfg) (kernel_vas_init cfg k current s).log = 1
    ∧ emissions (show_userspace_info cfg k mm) (kernel_vas_init cfg k current s).log
        = (if s = 0 then 1 else 2)
    ∧ kernel_part (kernel_vas_init cfg k current s).log = [] := by
  obtain ⟨u1, u2⟩ := userspace_fmt_facts cfg.BITS_PER_LONG
  obtain ⟨v1, v2⟩ := task_size_fmt_facts cfg.BITS_PER_LONG
  obtain ⟨a1, a2, hU⟩ : ∃ a1 a2, show_userspace_info cfg k mm
      = [⟨userspace_fmt cfg.BITS_PER_LONG, a1⟩, ⟨task_size_fmt cfg.BITS_PER_LONG, a2⟩] :=
    ⟨_, _, rfl⟩
  have hsh := emissions_shape
    ⟨"%s: kernel_vas is INSERTED\n", [.str k.KBUILD_MODNAME]⟩
    ⟨"%s", [.str (minsysinfo_msg cfg)]⟩
    ⟨userspace_fmt cfg.BITS_PER_LONG, a1⟩
    ⟨task_size_fmt cfg.BITS_PER_LONG, a2⟩
    ⟨"+-------------------------------------------------------------+\n", []⟩
    ⟨"%s: skipping show userspace...\n", [.str k.KBUILD_MODNAME]⟩
    (rec_ne_of_key _ _ (by
      show fmtKey "%s" ≠ fmtKey "%s: kernel_vas is INSERTED\n"
      decide))
    (rec_ne_of_key _ _ (by
      show fmtKey "%s" ≠ fmtKey (userspace_fmt cfg.BITS_PER_LONG)
      rw [u1]; decide))
    (rec_ne_of_key _ _ (by
      show fmtKey "%s" ≠ fmtKey (task_size_fmt cfg.BITS_PER_LONG)
      rcases v1 with v1 | v1 <;> rw [v1] <;> decide))
    (rec_ne_of_key _ _ (by
      show fmtKey "%s" ≠ fmtKey "+-------------------------------------------------------------+\n"
      decide))
    (rec_ne_of_key _ _ (by
      show fmtKey "%s" ≠ fmtKey "%s: skipping show userspace...\n"
      decide))
    (rec_ne_of_key _ _ (by
      show fmtKey (userspace_fmt cfg.BITS_PER_LONG) ≠ fmtKey "%s: kernel_vas is INSERTED\n"
      rw [u1]; decide))
    (rec_ne_of_key _ _ (by
      show fmtKey (userspace_fmt cfg.BITS_PER_LONG) ≠ fmtKey (task_size_fmt cfg.BITS_PER_LONG)
      rw [u1]; rcases v1 with v1 | v1 <;> rw [v1] <;> decide))
    (rec_ne_of_key _ _ (by
      show fmtKey (userspace_fmt cfg.BITS_PER_LONG)
        ≠ fmtKey "+-------------------------------------------------------------+\n"
      rw [u1]; decide))
    (rec_ne_of_key _ _ (by
      show fmtKey (userspace_fmt cfg.BITS_PER_LONG) ≠ fmtKey "%s: skipping show userspace...\n"
      rw [u1]; decide))
  obtain ⟨e1, e2, e3, e4⟩ := hsh
  have k0 : hasKernelLabel "%s: kernel_vas is INSERTED\n" = false := by decide
  have k1 : hasKernelLabel "%s" = false := by decide
  have k2 : hasKernelLabel "+-------------------------------------------------------------+\n"
      = false := by decide
  have k3 : hasKernelLabel "%s: skipping show userspace...\n" = false := by decide
  rw [init_with_mm cfg k current mm s h]
  by_cases hs : s = 0
  · refine ⟨rfl, ?_, ?_, ?_⟩
    · simpa [Outcome.log, minsysinfo, hU, hs] using e2
    · simpa [Outcome.log, minsysinfo, hU, hs] using e4
    · simp [Outcome.log, minsysinfo, hU, hs, kernel_part, List.filter,
        k0, k1, k2, k3, u2, v2]
  · refine ⟨rfl, ?_, ?_, ?_⟩
    · simpa [Outcome.log, minsysinfo, hU, hs] using e1
    · simpa [Outcome.log, minsysinfo, hU, hs] using e3
    · simp [Outcome.log, minsysinfo, hU, hs, kernel_part, List.filter,
        k0, k1, k2, k3, u2, v2]

set_option maxRecDepth 100000 in
/-- The log of the init entry point carries no kernel region label, in every context. -/
theorem init_no_kernel_part (cfg : Config) (k : Kernel) (current : Task) (s : Int) :
    kernel_part (kernel_vas_init cfg k current s).log = [] := by
  cases hm : current.mm with
  | none =>
    have k0 : hasKernelLabel "%s: kernel_vas is INSERTED\n" = false := by decide
    have k1 : hasKernelLabel "%s" = false := by decide
    rw [init_without_mm cfg k current s hm]
    simp [Outcome.log, minsysinfo, kernel_part, List.filter, k0, k1]
  | some mm => exact (init_facts cfg k current mm s hm).2.2.2

set_option maxRecDepth 100000 in
/-- C3, evaluated over all inputs: whatever the build, the kernel constants, the execution
context (with or without a memory descriptor) and the option, no record that kernel_vas_init
logs carries a kernel region label; in particular the fixmap, module, vmalloc and lowmem
labels occur zero times, although show_kernelvas_info, which the entry point never calls,
would log each of them once (shown for the x86-64 sample build). -/
theorem C3_init_never_logs_kernel_regions (cfg : Config) (k : Kernel) (current : Task)
    (s : Int) :
    kernel_part (kernel_vas_init cfg k current s).log = []
    ∧ occurrences "|fixmap region:" (kernel_vas_init cfg k current s).log = 0
    ∧ occurrences "|module region:" (kernel_vas_init cfg k current s).log = 0
    ∧ occurrences "|vmalloc region:" (kernel_vas_init cfg k current s).log = 0
    ∧ occurrences "|lowmem region:" (kernel_vas_init cfg k current s).log = 0
    ∧ occurrences "|fixmap region:" (show_kernelvas_info cfg_x86_64 kernel_x86_64) = 1
    ∧ occurrences "|module region:" (show_kernelvas_info cfg_x86_64 kernel_x86_64) = 1
    ∧ occurrences "|vmalloc region:" (show_kernelvas_info cfg_x86_64 kernel_x86_64) = 1
    ∧ occurrences "|lowmem region:" (show_kernelvas_info cfg_x86_64 kernel_x86_64) = 1 := by
  have h := init_no_kernel_part cfg k current s
  exact ⟨h, occurrences_of_no_label _ h _ (by decide), occurrences_of_no_label _ h _ (by decide),
    occurrences_of_no_label _ h _ (by decide), occurrences_of_no_label _ h _ (by decide),
    by decide, by decide, by decide, by decide⟩

set_option maxRecDepth 100000 in
/-- C4, refuted as stated: in a context without a memory descriptor (current->mm is NULL, as
in a kernel thread) kernel_vas_init on the x86-64 sample build logs the insertion notice and
the system-info message and then faults in the first call of show_userspace_info: it returns
nothing, so not 0, and its log of two records holds no record of the user-space report,
whether the option is 0 or 1. -/
theorem C4_init_faults_without_memory_descriptor :
    task_without_mm.mm = none
    ∧ kernel_vas_init cfg_x86_64 kernel_x86_64 task_without_mm 0
        = .faulted
            [⟨"%s: kernel_vas is INSERTED\n", [.str "kernel_vas"]⟩,
             ⟨"%s", [.str ("minsysinfo(): minimal platform info:\nCPU: x86_64, "
                ++ "little-endian; 64-bit OS.\n")]⟩]
    ∧ kernel_vas_init cfg_x86_64 kernel_x86_64 task_without_mm 1
        = kernel_vas_init cfg_x86_64 kernel_x86_64 task_without_mm 0
    ∧ (kernel_vas_init cfg_x86_64 kernel_x86_64 task_without_mm 0).ret = none
    ∧ (kernel_vas_init cfg_x86_64 kernel_x86_64 task_without_mm 0).ret ≠ some 0
    ∧ ((kernel_vas_init cfg_x86_64 kernel_x86_64 task_without_mm 0).log.filter
        (fun r => decide (r.fmt = userspace_fmt 64) || decide (r.fmt = task_size_fmt 64)))
        = []
    ∧ emissions (show_userspace_info cfg_x86_64 kernel_x86_64 mm_snapshot)
        (kernel_vas_init cfg_x86_64 kernel_x86_64 task_without_mm 0).log = 0
    ∧ emissions (show_userspace_info cfg_x86_64 kernel_x86_64 mm_snapshot)
        (kernel_vas_init cfg_x86_64 kernel_x86_64 task_without_mm 1).log = 0 := by
  refine ⟨rfl, by decide, by decide, by decide, by decide, by decide, by decide, by decide⟩

/-- C4, amended: for every build, every execution context that has a memory descriptor
(current->mm is not NULL, as in the process that loads the module) and every value of
show_uservas, kernel_vas_init returns 0 and logs the system-info message exactly once; it
logs the user-space report of show_userspace_info exactly once when the option is 0 and
exactly twice when it is non-zero, one emission more than with the option off; and the
kernel-space part of the log is the same with the option on as with it off. -/
theorem C4_init_user_report_once_or_twice (cfg : Config) (k : Kernel) (current : Task)
    (mm : MM) (s : Int) (h : current.mm = some mm) :
    (kernel_vas_init cfg k current s).ret = some 0
    ∧ emissions (minsysinfo cfg) (kernel_vas_init cfg k current s).log = 1
    ∧ emissions (show_userspace_info cfg k mm) (kernel_vas_init cfg k current 0).log = 1
    ∧ emissions (show_userspace_info cfg k mm) (kernel_vas_init cfg k current s).log
        = (if s = 0 then 1 else 2)
    ∧ emissions (show_userspace_info cfg k mm) (kernel_vas_init cfg k current s).log
        = emissions (show_userspace_info cfg k mm) (kernel_vas_init cfg k current 0).log
          + (if s = 0 then 0 else 1)
    ∧ kernel_part (kernel_vas_init cfg k current s).log
        = kernel_part (kernel_vas_init cfg k current 0).log := by
  obtain ⟨r, m, u, kp⟩ := init_facts cfg k current mm s h
  obtain ⟨_, _, u0, kp0⟩ := init_facts cfg k current mm 0 h
  simp only [if_true] at u0
  refine ⟨r, m, u0, u, ?_, by rw [kp, kp0]⟩
  rw [u, u0]
  by_cases hs : s = 0 <;> simp [hs]

/-- Witness of C4: the x86-64 sample build in the context of the snapshot, with the option
on. -/
theorem C4_init_user_report_once_or_twice_witness :
    task_snapshot.mm = some mm_snapshot
    ∧ (kernel_vas_init cfg_x86_64 kernel_x86_64 task_snapshot 1).ret = some 0
    ∧ emissions (minsysinfo cfg_x86_64)
        (kernel_vas_init cfg_x86_64 kernel_x86_64 task_snapshot 1).log = 1
    ∧ emissions (show_userspace_info cfg_x86_64 kernel_x86_64 mm_snapshot)
        (kernel_vas_init cfg_x86_64 kernel_x86_64 task_snapshot 0).log = 1
    ∧ emissions (show_userspace_info cfg_x86_64 kernel_x86_64 mm_snapshot)
        (kernel_vas_init cfg_x86_64 kernel_x86_64 task_snapshot 1).log = 2 := by
  have h := C4_init_user_report_once_or_twice cfg_x86_64 kernel_x86_64 task_snapshot
    mm_snapshot 1 rfl
  exact ⟨rfl, h.1, h.2.1, h.2.2.1, h.2.2.2.1⟩

/-! ## C6 and C7: the region lines of the kernel report -/

theorem region_lines_append (a b : List Rec) :
    region_lines (a ++ b) = region_lines a ++ region_lines b := by
  simp [region_lines, List.filterMap_append]

theorem region_lines_single (g : Region) (fmt : String) (args : List CVal)
    (h : regionOf fmt = some g) : region_lines [⟨fmt, args⟩] = [(g, first_ptr args)] := by
  simp [region_lines, h]

theorem region_lines_single_none (fmt : String) (args : List CVal)
    (h : regionOf fmt = none) : region_lines [⟨fmt, args⟩] = [] := by
  simp [region_lines, h]

theorem first_ptr_kilo (bits low hi : Nat) :
    first_ptr (SHOW_DELTA_KILO bits low hi) = some low := rfl

theorem first_ptr_mega (bits low hi : Nat) :
    first_ptr (SHOW_DELTA_MEGA bits low hi) = some low := rfl

theorem first_ptr_mega_giga (bits low hi : Nat) :
    first_ptr (SHOW_DELTA_MEGA_GIGA bits low hi) = some low := rfl

theorem first_ptr_mega_giga_tera (bits low hi : Nat) :
    first_ptr (SHOW_DELTA_MEGA_GIGA_TERA bits low hi) = some low := by
  unfold SHOW_DELTA_MEGA_GIGA_TERA
  split_ifs <;> rfl

set_option maxRecDepth 100000 in
theorem lines_header (cfg : Config) (k : Kernel) : region_lines (kvas_header cfg k) = [] := by
  unfold kvas_header
  split_ifs <;> simp only [region_lines_append, List.append_nil] <;>
    repeat (rw [region_lines_single_none _ _ (by decide)])
  all_goals rfl

set_option maxRecDepth 100000 in
theorem lines_vector (cfg : Config) (k : Kernel) :
    region_lines (kvas_vector cfg k)
      = if cfg.CONFIG_ARM && decide (cfg.LINUX_VERSION_CODE > KERNEL_VERSION 4 11 0)
        then [(.vector, some k.VECTORS_BASE)] else [] := by
  unfold kvas_vector
  split_ifs
  · rw [region_lines_single .vector _ _ (by decide), first_ptr_kilo]
  · rfl

set_option maxRecDepth 100000 in
theorem lines_fixmap (cfg : Config) (k : Kernel) :
    region_lines (kvas_fixmap cfg k)
      = if cfg.CONFIG_ARM || cfg.CONFIG_ARM64 || cfg.CONFIG_X86
        then [(.fixmap, some k.FIXADDR_START)] else [(.fixmap, none)] := by
  unfold kvas_fixmap
  split_ifs with h1 h2 h3 h3
  · rw [region_lines_single .fixmap _ _ (by decide), first_ptr_mega]
  · simp [h1] at h2
  · rw [region_lines_single .fixmap _ _ (by decide), first_ptr_mega]
  · simp_all
  · simp_all
  · rw [region_lines_single .fixmap _ _ (by decide)]; rfl

set_option maxRecDepth 100000 in
theorem lines_module64 (cfg : Config) (k : Kernel) :
    region_lines (kvas_module64 cfg k)
      = if cfg.BITS_PER_LONG == 64 then [(.module, some k.MODULES_VADDR)] else [] := by
  unfold kvas_module64
  split_ifs
  · rw [region_lines_single .module _ _ (by decide), first_ptr_mega]
  · rfl

set_option maxRecDepth 100000 in
theorem lines_kasan (cfg : Config) (k : Kernel) :
    region_lines (kvas_kasan cfg k)
      = if cfg.CONFIG_KASAN then [(.kasan, some k.KASAN_SHADOW_START)] else [] := by
  unfold kvas_kasan
  split_ifs
  · rw [region_lines_single .kasan _ _ (by decide), first_ptr_mega_giga_tera]
  · rw [region_lines_single .kasan _ _ (by decide), first_ptr_mega_giga]
  · rfl

set_option maxRecDepth 100000 in
theorem lines_vmemmap (cfg : Config) (k : Kernel) :
    region_lines (kvas_vmemmap cfg k)
      = (if cfg.CONFIG_SPARSEMEM_VMEMMAP && cfg.CONFIG_ARM64
          then [(.vmemmap, some k.VMEMMAP_START)] else [])
        ++ (if cfg.CONFIG_X86 && cfg.BITS_PER_LONG == 64
          then [(.vmemmap, some k.VMEMMAP_START)] else []) := by
  unfold kvas_vmemmap
  rw [region_lines_append]
  congr 1
  · split_ifs
    · rw [region_lines_single .vmemmap _ _ (by decide), first_ptr_mega_giga_tera]
    · rfl
  · split_ifs
    · rw [region_lines_single .vmemmap _ _ (by decide)]; rfl
    · rfl

set_option maxRecDepth 100000 in
theorem lines_vmalloc (cfg : Config) (k : Kernel) :
    region_lines (kvas_vmalloc cfg k) = [(.vmalloc, some k.VMALLOC_START)] := by
  unfold kvas_vmalloc
  split_ifs
  · rw [region_lines_single .vmalloc _ _ (by decide), first_ptr_mega_giga_tera]
  · rw [region_lines_single .vmalloc _ _ (by decide), first_ptr_mega]

set_option maxRecDepth 100000 in
theorem lines_lowmem (cfg : Config) (k : Kernel) :
    region_lines (kvas_lowmem cfg k) = [(.lowmem, some k.PAGE_OFFSET)] := by
  unfold kvas_lowmem
  split_ifs
  · rw [region_lines_single .lowmem _ _ (by decide), first_ptr_mega]
  · rw [region_lines_single .lowmem _ _ (by decide), first_ptr_mega]

set_option maxRecDepth 100000 in
theorem lines_highmem (cfg : Config) (k : Kernel) :
    region_lines (kvas_highmem cfg k)
      = if cfg.CONFIG_HIGHMEM && cfg.BITS_PER_LONG == 32
        then [(.highmem, some k.PKMAP_BASE)] else [] := by
  unfold kvas_highmem
  split_ifs
  · rw [region_lines_single .highmem _ _ (by decide), first_ptr_mega]
  · rfl

set_option maxRecDepth 100000 in
theorem lines_module32 (cfg : Config) (k : Kernel) :
    region_lines (kvas_module32 cfg k)
      = if cfg.BITS_PER_LONG == 32 then [(.module, some k.MODULES_VADDR)] else [] := by
  unfold kvas_module32
  split_ifs
  · rw [region_lines_single .module _ _ (by decide), first_ptr_mega]
  · rfl

set_option maxRecDepth 100000 in
/-- The region lines of the kernel report, for every assignment of the build flags. -/
theorem lines_kernelvas (cfg : Config) (k : Kernel) :
    region_lines (show_kernelvas_info cfg k)
      = (if cfg.CONFIG_ARM && decide (cfg.LINUX_VERSION_CODE > KERNEL_VERSION 4 11 0)
          then [(.vector, some k.VECTORS_BASE)] else [])
        ++ (if cfg.CONFIG_ARM || cfg.CONFIG_ARM64 || cfg.CONFIG_X86
          then [(.fixmap, some k.FIXADDR_START)] else [(.fixmap, none)])
        ++ (if cfg.BITS_PER_LONG == 64 then [(.module, some k.MODULES_VADDR)] else [])
        ++ (if cfg.CONFIG_KASAN then [(.kasan, some k.KASAN_SHADOW_START)] else [])
        ++ ((if cfg.CONFIG_SPARSEMEM_VMEMMAP && cfg.CONFIG_ARM64
              then [(.vmemmap, some k.VMEMMAP_START)] else [])
            ++ (if cfg.CONFIG_X86 && cfg.BITS_PER_LONG == 64
              then [(.vmemmap, some k.VMEMMAP_START)] else []))
        ++ [(.vmalloc, some k.VMALLOC_START)]
        ++ [(.lowmem, some k.PAGE_OFFSET)]
        ++ (if cfg.CONFIG_HIGHMEM && cfg.BITS_PER_LONG == 32
          then [(.highmem, some k.PKMAP_BASE)] else [])
        ++ (if cfg.BITS_PER_LONG == 32 then [(.module, some k.MODULES_VADDR)] else []) := by
  unfold show_kernelvas_info kvas_regions
  simp only [region_lines_append, lines_header, lines_vector, lines_fixmap, lines_module64,
    lines_kasan, lines_vmemmap, lines_vmalloc, lines_lowmem, lines_highmem, lines_module32,
    List.nil_append]
  rw [region_lines_single_none _ _ (by decide), List.append_nil]


theorem map_fst_ite (c : Bool) (x : Region × Option Nat) :
    (if c = true then [x] else []).map (fun p => p.1) = opt c x.1 := by
  cases c <;> rfl

/-- The regions of the kernel report, for every assignment of the build flags. -/
theorem seq_kernelvas (cfg : Config) (k : Kernel) :
    region_seq (show_kernelvas_info cfg k)
      = opt (cfg.CONFIG_ARM && decide (cfg.LINUX_VERSION_CODE > KERNEL_VERSION 4 11 0)) .vector
        ++ [.fixmap]
        ++ opt (cfg.BITS_PER_LONG == 64) .module
        ++ opt cfg.CONFIG_KASAN .kasan
        ++ (opt (cfg.CONFIG_SPARSEMEM_VMEMMAP && cfg.CONFIG_ARM64) .vmemmap
            ++ opt (cfg.CONFIG_X86 && cfg.BITS_PER_LONG == 64) .vmemmap)
        ++ [.vmalloc] ++ [.lowmem]
        ++ opt (cfg.CONFIG_HIGHMEM && cfg.BITS_PER_LONG == 32) .highmem
        ++ opt (cfg.BITS_PER_LONG == 32) .module := by
  unfold region_seq
  rw [lines_kernelvas]
  simp only [List.map_append, map_fst_ite, List.map_cons, List.map_nil]
  congr 8
  cases (cfg.CONFIG_ARM || cfg.CONFIG_ARM64 || cfg.CONFIG_X86) <;> rfl

theorem lows_sublist (k : Kernel) (l : List (Region × Option Nat))
    (h : ∀ p ∈ l, p.2 = none ∨ p.2 = some (Region.low k p.1)) :
    (l.filterMap (fun p => p.2)).Sublist (l.map (fun p => Region.low k p.1)) := by
  induction l with
  | nil => simp
  | cons p l ih =>
    have ih2 := ih (fun q hq => h q (List.mem_cons_of_mem _ hq))
    rcases h p (List.mem_cons_self _ _) with hp | hp
    · rw [List.filterMap_cons_none hp, List.map_cons]
      exact List.Sublist.cons _ ih2
    · rw [List.filterMap_cons_some hp, List.map_cons]
      exact List.Sublist.cons₂ _ ih2

theorem lines_kernelvas_low (cfg : Config) (k : Kernel) :
    ∀ p ∈ region_lines (show_kernelvas_info cfg k),
      p.2 = none ∨ p.2 = some (Region.low k p.1) := by
  intro p hp
  rw [lines_kernelvas] at hp
  simp only [List.mem_append, List.mem_singleton] at hp
  rcases hp with ((((((((hp | hp) | hp) | hp) | hp | hp) | hp) | hp) | hp) | hp)
  all_goals first
    | (subst hp; right; rfl)
    | (split_ifs at hp <;> simp only [List.mem_singleton, List.not_mem_nil] at hp <;>
        subst hp <;> first | (right; rfl) | (left; rfl))

theorem lows_kernelvas_sublist (cfg : Config) (k : Kernel) :
    (region_lows (show_kernelvas_info cfg k)).Sublist
      ((region_seq (show_kernelvas_info cfg k)).map (Region.low k)) := by
  unfold region_lows region_seq
  rw [List.map_map]
  exact lows_sublist k _ (lines_kernelvas_low cfg k)


theorem mem_opt (c : Bool) (g r : Region) : r ∈ opt c g ↔ (c = true ∧ r = g) := by
  cases c <;> simp [opt]

set_option maxRecDepth 100000 in
/-- C6, evaluated: for every build and all kernel constants, the lines of the vector table,
the KASAN shadow, the vmemmap region and the HIGHMEM region are in the kernel report exactly
when their configuration holds; the fixmap label, however, is in the report of every build,
and on the 32-bit MIPS sample build, which is neither ARM, ARM64 nor x86, the fixmap record is
the dots line followed by the bare label "|fixmap region:      ", with no address range, no
size and no line end. -/
theorem C6_fixmap_label_without_range (cfg : Config) (k : Kernel) :
    (Region.vector ∈ region_seq (show_kernelvas_info cfg k)
      ↔ region_configured cfg .vector = true)
    ∧ (Region.kasan ∈ region_seq (show_kernelvas_info cfg k)
      ↔ region_configured cfg .kasan = true)
    ∧ (Region.vmemmap ∈ region_seq (show_kernelvas_info cfg k)
      ↔ region_configured cfg .vmemmap = true)
    ∧ (Region.highmem ∈ region_seq (show_kernelvas_info cfg k)
      ↔ region_configured cfg .highmem = true)
    ∧ Region.fixmap ∈ region_seq (show_kernelvas_info cfg k)
    ∧ region_configured cfg_mips32 .fixmap = false
    ∧ kvas_fixmap cfg_mips32 k = [⟨DOTS ++ "|fixmap region:      ", []⟩]
    ∧ region_lines (show_kernelvas_info cfg_mips32 k)
        = [(.fixmap, none), (.vmalloc, some k.VMALLOC_START), (.lowmem, some k.PAGE_OFFSET),
            (.module, some k.MODULES_VADDR)] := by
  refine ⟨?_, ?_, ?_, ?_, ?_, by decide, rfl, ?_⟩
  · rw [seq_kernelvas]; simp [mem_opt, region_configured]
  · rw [seq_kernelvas]; simp [mem_opt, region_configured]
  · rw [seq_kernelvas]; simp [mem_opt, region_configured]
  · rw [seq_kernelvas]; simp [mem_opt, region_configured]
  · rw [seq_kernelvas]; simp [mem_opt]
  · rw [lines_kernelvas]; rfl

set_option maxRecDepth 100000 in
/-- C7, refuted as stated: on a well-formed 64-bit build whose constants put the module area
above vmalloc, the start addresses on the emitted region lines need not descend: with the
linear map on top and the fixmap below the module area, the lines start at
0xffffffbffbc00000 (fixmap), 0xffffffbffc000000 (module), 0xffffffbc00000000 (vmemmap),
0xffffff8000000000 (vmalloc) and 0xffffffc000000000 (lowmem). -/
theorem C7_module_above_vmalloc_does_not_give_descending_order :
    well_formed cfg_arm64
    ∧ kernel_linear_map_on_top.VMALLOC_END ≤ kernel_linear_map_on_top.MODULES_VADDR
    ∧ region_seq (show_kernelvas_info cfg_arm64 kernel_linear_map_on_top)
        = [.fixmap, .module, .vmemmap, .vmalloc, .lowmem]
    ∧ region_lows (show_kernelvas_info cfg_arm64 kernel_linear_map_on_top)
        = [0xffffffbffbc00000, 0xffffffbffc000000, 0xffffffbc00000000, 0xffffff8000000000,
            0xffffffc000000000]
    ∧ ¬ (region_lows (show_kernelvas_info cfg_arm64 kernel_linear_map_on_top)).Pairwise
        (fun a b => b < a) := by
  refine ⟨by unfold well_formed; decide, by decide, by decide, by decide, by decide⟩

/-- C7, amended: for every well-formed build (a 32-bit or 64-bit word, CONFIG_ARM only with
32 bits, CONFIG_ARM64 only with 64 bits and without CONFIG_X86) and all kernel constants,
show_kernelvas_info emits the module-region line exactly once, and the region lines come in
the order fixed per build: on 64-bit fixmap, module, KASAN shadow (if any), vmemmap (if any),
vmalloc, lowmem; on 32-bit vector table (if any), fixmap, KASAN shadow (if any), vmalloc,
lowmem, HIGHMEM (if any), module. Consequently, whenever the start addresses of the build's
regions, taken in that order, descend (which includes the module area above vmalloc on 64-bit
and below lowmem on 32-bit), the start addresses on the emitted lines descend. -/
theorem C7_region_order (cfg : Config) (k : Kernel) (hw : well_formed cfg) :
    (region_seq (show_kernelvas_info cfg k)).count .module = 1
    ∧ region_seq (show_kernelvas_info cfg k) = spec_region_order cfg
    ∧ (((spec_region_order cfg).map (Region.low k)).Pairwise (fun a b => b < a) →
        (region_lows (show_kernelvas_info cfg k)).Pairwise (fun a b => b < a)) := by
  have hseq : region_seq (show_kernelvas_info cfg k) = spec_region_order cfg := by
    rw [seq_kernelvas]
    obtain ⟨hb, harm, harm64, hboth⟩ := hw
    unfold spec_region_order region_configured
    rcases hb with hb | hb
    · have h64 : cfg.CONFIG_ARM64 = false := by
        cases h : cfg.CONFIG_ARM64
        · rfl
        · have := harm64 h; omega
      simp [hb, h64, opt]
    · have h32 : cfg.CONFIG_ARM = false := by
        cases h : cfg.CONFIG_ARM
        · rfl
        · have := harm h; omega
      have hx : cfg.CONFIG_ARM64 = true → cfg.CONFIG_X86 = false := by
        intro h
        cases hx : cfg.CONFIG_X86
        · rfl
        · exact absurd ⟨h, hx⟩ hboth
      cases h1 : cfg.CONFIG_ARM64 <;> cases h2 : cfg.CONFIG_X86 <;>
        cases h3 : cfg.CONFIG_SPARSEMEM_VMEMMAP <;> cases h4 : cfg.CONFIG_KASAN <;>
        simp_all [opt]
  refine ⟨?_, hseq, fun h => ?_⟩
  · rw [hseq]
    unfold spec_region_order opt
    split_ifs <;> decide
  · have hs := lows_kernelvas_sublist cfg k
    rw [hseq] at hs
    exact List.Pairwise.sublist hs h

set_option maxRecDepth 100000 in
/-- Witness of C7: the x86-64 sample build and constants, whose region starts descend. -/
theorem C7_region_order_witness :
    well_formed cfg_x86_64
    ∧ ((spec_region_order cfg_x86_64).map (Region.low kernel_x86_64)).Pairwise
        (fun a b => b < a)
    ∧ (region_seq (show_kernelvas_info cfg_x86_64 kernel_x86_64)).count .module = 1
    ∧ region_seq (show_kernelvas_info cfg_x86_64 kernel_x86_64)
        = [.fixmap, .module, .kasan, .vmemmap, .vmalloc, .lowmem]
    ∧ (region_lows (show_kernelvas_info cfg_x86_64 kernel_x86_64)).Pairwise
        (fun a b => b < a) := by
  have hw : well_formed cfg_x86_64 := by unfold well_formed; decide
  have h := C7_region_order cfg_x86_64 kernel_x86_64 hw
  exact ⟨hw, by decide, h.1, h.2.1.trans (by decide), h.2.2 (by decide)⟩

end KernelVas
